import Mathlib

/-!
# Verification of the SprintSlidesAI backend (`backend/main.py`)

This file is a shallow embedding of the deck-generation pipeline of the
SprintSlidesAI backend in Lean 4, together with theorems settling the
specification claims about it.

Modelling conventions:

* Python strings are modelled as `List Char` (`PStr`).  Python's `str.strip`,
  `str.find`, `str.rfind`, `str.split`, slicing, `str.replace`,
  `str.title`, `str.upper` are modelled character-exactly on `PStr`
  (for the ASCII inputs the program manipulates; exotic Unicode whitespace
  is not modelled).
* JSON values decoded by `json.loads` are modelled by the inductive `Json`.
  Numbers are modelled as integers (no floats appear anywhere in the
  program's data), `\uXXXX` string escapes are not modelled; a Python
  `dict` is an insertion-ordered key/value list with distinct keys, which
  is what `json.loads` produces.
* Exceptions are explicit: a function that can raise returns
  `Except PyErr _`.  `HTTPException(status, detail)` is
  `PyErr.httpException`; an `AttributeError` (e.g. calling `.get` on a
  non-dict) is `PyErr.attributeError`.
* The remote completion endpoint (`groq_chat`) is an external collaborator;
  the completion texts it would return are passed to the endpoint models as
  parameters `raw1`/`raw2`, and the requests the code would issue are
  recorded as a `List GroqCall` so that retry behaviour is observable.
* ReportLab's canvas is modelled as the list of pages, each page being the
  ordered list of drawing operations issued on it; `build_pdf`'s byte
  serialisation of those pages is outside the model.  Float coordinates are
  modelled as exact rationals.
-/

/-- Python strings, modelled as lists of characters. -/
abbrev PStr := List Char

/-- The whitespace characters recognised by Python's `str.strip`/`str.split`
(ASCII fragment). -/
def isStrWs (c : Char) : Bool :=
  c = ' ' || c = '\t' || c = '\n' || c = '\r' || c = '\x0b' || c = '\x0c'

/-- Python `s.strip()`: remove leading and trailing whitespace. -/
def pyStrip (l : PStr) : PStr :=
  (l.rdropWhile isStrWs).dropWhile isStrWs

/-- Python `s.find(sub)`: index of the leftmost occurrence of `sub`,
`none` for `-1`.  (`s.find("") = 0`, as in Python.) -/
def pyFind (l sub : PStr) : Option Nat :=
  match l with
  | [] => if sub.isEmpty then some 0 else none
  | _ :: rest =>
    if sub.isPrefixOf l then some 0 else (pyFind rest sub).map (· + 1)

/-- Python `s.rfind(sub)`: index of the rightmost occurrence of `sub`,
`none` for `-1`. -/
def pyRFind (l sub : PStr) : Option Nat :=
  match l with
  | [] => if sub.isEmpty then some 0 else none
  | _ :: rest =>
    match pyRFind rest sub with
    | some i => some (i + 1)
    | none => if sub.isPrefixOf l then some 0 else none

/-- Python slicing `l[:n]` for an `int` bound `n` (negative bounds count
from the end, clamped at `0`). -/
def pySliceTo (l : List α) (n : Int) : List α :=
  if n < 0 then l.take (l.length - (-n).toNat) else l.take n.toNat

/-- Python `s.replace(a, b)` for single-character `a`, `b`. -/
def pyReplaceChar (l : PStr) (a b : Char) : PStr :=
  l.map fun c => if c = a then b else c

/-- Python `s.upper()` (ASCII). -/
def pyUpper (l : PStr) : PStr := l.map Char.toUpper

/-- Helper for `pyTitle`: the `Bool` records whether the previous character
was alphabetic. -/
def pyTitleAux : Bool → PStr → PStr
  | _, [] => []
  | prev, c :: rest =>
    if c.isAlpha then
      (if prev then c.toLower else c.toUpper) :: pyTitleAux true rest
    else c :: pyTitleAux false rest

/-- Python `s.title()` (ASCII letters). -/
def pyTitle (l : PStr) : PStr := pyTitleAux false l

/-- Python `s.split()` helper: walks the string keeping the (reversed)
current word. -/
def splitWsAux : PStr → PStr → List PStr
  | [], cur => if cur = [] then [] else [cur.reverse]
  | c :: rest, cur =>
    if isStrWs c then
      if cur = [] then splitWsAux rest [] else cur.reverse :: splitWsAux rest []
    else splitWsAux rest (c :: cur)

/-- Python `s.split()` (no argument): maximal runs of non-whitespace. -/
def pySplitWs (l : PStr) : List PStr := splitWsAux l []

/-- Python `s.split(sep)` for a single-character separator: splits at every
occurrence, keeping empty pieces (so `"".split(c) = [""]`). -/
def pySplitSep (sep : Char) (l : PStr) : List PStr :=
  l.foldr
    (fun c acc =>
      if c = sep then [] :: acc
      else match acc with
        | h :: t => (c :: h) :: t
        | [] => [[c]])
    [[]]

/-- `strip_markdown_fences` from `backend/main.py`: if the stripped text
starts with a triple backtick, drop through the first newline and drop from
the last triple backtick on, then strip again. -/
def strip_markdown_fences (text : PStr) : PStr :=
  let t := pyStrip text
  let t :=
    if ("```".toList).isPrefixOf t then
      let t :=
        match pyFind t ['\n'] with
        | some first_nl => t.drop (first_nl + 1)
        | none => t
      match pyRFind t ("```".toList) with
      | some last => t.take last
      | none => t
    else t
  pyStrip t

/-- `force_json_only` from `backend/main.py`: slice to the span from the
first `{` to the last `}` (if both exist in that order), then strip. -/
def force_json_only (text : PStr) : PStr :=
  let t := pyStrip text
  match pyFind t ['\x7b'], pyRFind t ['\x7d'] with
  | some s, some e => if e ≤ s then t else pyStrip ((t.drop s).take (e + 1 - s))
  | _, _ => t

/-- `estimate_max_tokens` from `backend/main.py`. -/
def estimate_max_tokens (n : Int) : Int :=
  min 6500 (1200 + n * 350)

/-- A decoded JSON value (the result of `json.loads`).  Python `dict`s keep
insertion order and have distinct keys; numbers are modelled as integers. -/
inductive Json where
  | null
  | bool (b : Bool)
  | num (n : Int)
  | str (s : PStr)
  | arr (xs : List Json)
  | obj (kvs : List (PStr × Json))

/-- Python `dict` lookup on the key/value list (first match; parsed dicts
have distinct keys). -/
def objGet (kvs : List (PStr × Json)) (k : PStr) : Option Json :=
  match kvs with
  | [] => none
  | (k', v) :: rest => if k' = k then some v else objGet rest k

/-- `Json.isObj j` holds iff `j` is a JSON object (a Python `dict`). -/
def Json.isObj : Json → Bool
  | .obj _ => true
  | _ => false

/-- Building a Python `dict` during parsing: a repeated key overwrites the
value in place, a fresh key is appended (insertion order). -/
def dictInsert (kvs : List (PStr × Json)) (k : PStr) (v : Json) : List (PStr × Json) :=
  if kvs.any (fun p => p.1 = k) then
    kvs.map fun p => if p.1 = k then (k, v) else p
  else kvs ++ [(k, v)]

/-- The whitespace accepted between JSON tokens by `json.loads`. -/
def isJsonWs (c : Char) : Bool :=
  c = ' ' || c = '\t' || c = '\n' || c = '\r'

/-- Skip JSON inter-token whitespace. -/
def skipJWs (l : PStr) : PStr := l.dropWhile isJsonWs

/-- Parse the body of a JSON string (the opening quote already consumed);
returns the decoded content and the remainder after the closing quote.
`\uXXXX` escapes are not modelled; raw control characters are rejected as
in strict `json.loads`. -/
def parseStringBody : PStr → Option (PStr × PStr)
  | [] => none
  | c :: rest =>
    if c = '"' then some ([], rest)
    else if c = '\\' then
      match rest with
      | [] => none
      | e :: rest2 =>
        let esc : Option Char :=
          if e = '"' then some '"'
          else if e = '\\' then some '\\'
          else if e = '/' then some '/'
          else if e = 'b' then some '\x08'
          else if e = 'f' then some '\x0c'
          else if e = 'n' then some '\n'
          else if e = 'r' then some '\r'
          else if e = 't' then some '\t'
          else none
        match esc with
        | some ch => (parseStringBody rest2).map fun p => (ch :: p.1, p.2)
        | none => none
    else if c.toNat < 32 then none
    else (parseStringBody rest).map fun p => (c :: p.1, p.2)

/-- Parse a run of decimal digits. -/
def parseDigits (l : PStr) : Option (Nat × PStr) :=
  let ds := l.takeWhile Char.isDigit
  if ds.isEmpty then none
  else some (ds.foldl (fun a c => a * 10 + (c.toNat - 48)) 0, l.dropWhile Char.isDigit)

/-- Parse a JSON integer (floats are not modelled). -/
def parseNumber (l : PStr) : Option (Json × PStr) :=
  match l with
  | '-' :: rest => (parseDigits rest).map fun p => (Json.num (-(p.1 : Int)), p.2)
  | _ => (parseDigits l).map fun p => (Json.num (p.1 : Int), p.2)

/-- Parse one of the literals `true` / `false` / `null`. -/
def parseLit (l : PStr) : Option (Json × PStr) :=
  if ("true".toList).isPrefixOf l then some (Json.bool true, l.drop 4)
  else if ("false".toList).isPrefixOf l then some (Json.bool false, l.drop 5)
  else if ("null".toList).isPrefixOf l then some (Json.null, l.drop 4)
  else none

mutual

/-- Fuel-indexed recursive-descent parser for one JSON value (leading
whitespace already skipped). -/
def parseVal : Nat → PStr → Option (Json × PStr)
  | 0, _ => none
  | fuel + 1, l =>
    match l with
    | [] => none
    | c :: rest =>
      if c = '\x7b' then
        match skipJWs rest with
        | '\x7d' :: r2 => some (Json.obj [], r2)
        | r => parseMembers fuel r []
      else if c = '[' then
        match skipJWs rest with
        | ']' :: r2 => some (Json.arr [], r2)
        | r => parseItems fuel r []
      else if c = '"' then
        (parseStringBody rest).map fun p => (Json.str p.1, p.2)
      else if c = 't' ∨ c = 'f' ∨ c = 'n' then parseLit l
      else parseNumber l

/-- Parse the remaining items of a non-empty JSON array. -/
def parseItems : Nat → PStr → List Json → Option (Json × PStr)
  | 0, _, _ => none
  | fuel + 1, l, acc =>
    match parseVal fuel l with
    | none => none
    | some (v, r) =>
      match skipJWs r with
      | ',' :: r2 => parseItems fuel (skipJWs r2) (acc ++ [v])
      | ']' :: r2 => some (Json.arr (acc ++ [v]), r2)
      | _ => none

/-- Parse the remaining members of a non-empty JSON object. -/
def parseMembers : Nat → PStr → List (PStr × Json) → Option (Json × PStr)
  | 0, _, _ => none
  | fuel + 1, l, acc =>
    match l with
    | '"' :: rest =>
      match parseStringBody rest with
      | none => none
      | some (k, r) =>
        match skipJWs r with
        | ':' :: r2 =>
          match parseVal fuel (skipJWs r2) with
          | none => none
          | some (v, r3) =>
            match skipJWs r3 with
            | ',' :: r4 => parseMembers fuel (skipJWs r4) (dictInsert acc k v)
            | '\x7d' :: r4 => some (Json.obj (dictInsert acc k v), r4)
            | _ => none
        | _ => none
    | _ => none

end

/-- `json.loads`: parse a complete JSON document (the fuel `2·|l| + 4`
strictly dominates the recursion depth of any parse of `l`). -/
def Json.parse (l : PStr) : Option Json :=
  match parseVal (2 * l.length + 4) (skipJWs l) with
  | some (v, r) => if skipJWs r = [] then some v else none
  | none => none

/-- One escaped character of a Python string repr (`q` is the chosen quote
character). -/
def pyReprChar (q : Char) (c : Char) : PStr :=
  if c = '\\' then ['\\', '\\']
  else if c = '\n' then ['\\', 'n']
  else if c = '\r' then ['\\', 'r']
  else if c = '\t' then ['\\', 't']
  else if c = q then ['\\', q]
  else [c]

/-- Python `repr` of a string: single quotes, unless the string contains a
single quote and no double quote. -/
def pyReprStr (s : PStr) : PStr :=
  let q : Char := if s.contains '\'' && !(s.contains '"') then '"' else '\''
  q :: (s.flatMap (pyReprChar q)) ++ [q]

mutual

/-- Python `repr` of a decoded JSON value (`None`/`True`/`False`, quoted
strings, `[...]` lists, `{...}` dicts). -/
def pyRepr : Json → PStr
  | .null => "None".toList
  | .bool true => "True".toList
  | .bool false => "False".toList
  | .num n => (toString n).toList
  | .str s => pyReprStr s
  | .arr xs => '[' :: pyReprList xs ++ [']']
  | .obj kvs => '\x7b' :: pyReprMembers kvs ++ ['\x7d']

/-- `repr` of the elements of a list, comma-separated. -/
def pyReprList : List Json → PStr
  | [] => []
  | [x] => pyRepr x
  | x :: xs => pyRepr x ++ ", ".toList ++ pyReprList xs

/-- `repr` of the members of a dict, comma-separated. -/
def pyReprMembers : List (PStr × Json) → PStr
  | [] => []
  | [(k, v)] => pyReprStr k ++ ": ".toList ++ pyRepr v
  | (k, v) :: kvs => pyReprStr k ++ ": ".toList ++ pyRepr v ++ ", ".toList ++ pyReprMembers kvs

end

/-- Python `str()` of a decoded JSON value: a string is returned as-is,
anything else via `repr`. -/
def pyStr : Json → PStr
  | .str s => s
  | j => pyRepr j

/-- The structured `detail` payloads of the `HTTPException`s the backend
raises. -/
inductive Detail where
  | msg (s : PStr)
  | invalidJson (error cleaned_preview : PStr)
  | inconsistent (error attempt1_preview attempt2_preview : PStr)

/-- A raised Python exception: `HTTPException(status_code, detail)` or an
`AttributeError` (calling `.get` on a non-dict). -/
inductive PyErr where
  | httpException (status : Nat) (detail : Detail)
  | attributeError

/-- `safe_json_load` from `backend/main.py`: clean the raw completion text
and parse it; an unparseable text raises
`HTTPException(500, {error, cleaned_preview})` with a 900-character preview. -/
def safe_json_load (raw : PStr) : Except PyErr Json :=
  let cleaned := force_json_only (strip_markdown_fences raw)
  match Json.parse cleaned with
  | some j => .ok j
  | none =>
    .error (.httpException 500
      (.invalidJson ("Invalid JSON from model".toList) (cleaned.take 900)))

/-- Python `decoded.get(k)` on a decoded JSON value: `dict.get` returns the
value or `None` (modelled as `Json.null`, which is also what a JSON `null`
decodes to); on a non-dict it raises `AttributeError`. -/
def Json.pyGet (j : Json) (k : PStr) : Except PyErr Json :=
  match j with
  | .obj kvs => .ok ((objGet kvs k).getD .null)
  | _ => .error .attributeError

/-- A slide dict as produced by `normalize_slides` / consumed by
`build_pdf`. -/
abbrev JsonObj := List (PStr × Json)

/-- The body of `normalize_slides`' per-entry loop: a non-dict entry fails,
a dict entry is coerced to the three trimmed string fields with defaults
`"overview"` / `""` / `""`. -/
def coerce_slide : Json → Option JsonObj
  | .obj kvs =>
    let slide_type := pyStrip (pyStr ((objGet kvs ("type".toList)).getD (Json.str ("overview".toList))))
    let title := pyStrip (pyStr ((objGet kvs ("title".toList)).getD (Json.str [])))
    let content := pyStrip (pyStr ((objGet kvs ("content".toList)).getD (Json.str [])))
    some [("type".toList, Json.str slide_type),
          ("title".toList, Json.str title),
          ("content".toList, Json.str content)]
  | _ => none

/-- `normalize_slides`' `for s in slides` loop: stops with `None` at the
first non-dict entry, otherwise collects the coerced slides in order. -/
def coerceList : List Json → Option (List JsonObj)
  | [] => some []
  | s :: rest =>
    match coerce_slide s with
    | none => none
    | some d => (coerceList rest).map (d :: ·)

/-- `normalize_slides` from `backend/main.py`.  `decoded.get("slides")`
raises `AttributeError` when `decoded` is not a dict; a dict value for
`slides` is replaced by the list of its values; a non-list fails; a too-long
list is truncated to `n`; a list whose length is then not exactly `n`
fails; entries are coerced by `coerce_slide`. -/
def normalize_slides (decoded : Json) (n : Int) : Except PyErr (Option (List JsonObj)) :=
  match decoded.pyGet ("slides".toList) with
  | .error e => .error e
  | .ok slides0 =>
    let slides1 :=
      match slides0 with
      | .obj kvs => Json.arr (kvs.map Prod.snd)
      | j => j
    match slides1 with
    | .arr l0 =>
      let l1 := if (l0.length : Int) > n then pySliceTo l0 n else l0
      if (l1.length : Int) ≠ n then .ok none
      else
        match coerceList l1 with
        | some final => .ok (some final)
        | none => .ok none
    | _ => .ok none

/-- `build_prompt` from `backend/main.py` (the f-string literal, already
`.strip()`ped as in the source). -/
def build_prompt (topic : PStr) (n : Int) : PStr :=
  ("Return ONLY strict JSON. No markdown. No commentary.\n\nYou are an expert academic coach.\n\nCreate a ".toList)
  ++ (toString n).toList
  ++ ("-slide revision deck for the topic: \"".toList)
  ++ topic
  ++ ("\".\nFocus strongly on:\n1) Active Recall\n2) Structural Learning\n\nSTRICT RULES:\n- Output MUST be valid JSON\n- Must start with \x7b and end with \x7d\n- No extra text before or after JSON\n- \"slides\" MUST be a JSON ARRAY (list)\n- EXACTLY ".toList)
  ++ (toString n).toList
  ++ (" slides\n- Never return slides as an object/dict\n\nSchema:\n\x7b\n  \"slides\": [\n    \x7b\n      \"type\": \"overview|core_concepts|active_recall|examples|exam_tips\",\n      \"title\": \"string\",\n      \"content\": \"string\"\n    \x7d\n  ]\n\x7d\n\nSlide requirements:\n- Each slide should be rich: 8–12 bullet points OR detailed explanation\n- Assume exam revision: include definitions, key concepts, common traps/mistakes\n- Use \\n for newlines in content\n- Ensure JSON is complete (quotes closed etc.)\n\nNow output ONLY the JSON.".toList)

/-- `build_retry_prompt` from `backend/main.py` (already `.strip()`ped). -/
def build_retry_prompt (topic : PStr) (n : Int) : PStr :=
  ("RETURN JSON ONLY.\n\nSchema:\n\x7b\n  \"slides\": [\n    \x7b\n      \"type\": \"overview|core_concepts|active_recall|examples|exam_tips\",\n      \"title\": \"string\",\n      \"content\": \"string\"\n    \x7d\n  ]\n\x7d\n\nRULES:\n- slides MUST be an array\n- EXACTLY ".toList)
  ++ (toString n).toList
  ++ (" slides\n- JSON only. Nothing else.\n- Keep content clear and complete.\n- Use \\n between bullet points.\n\nTOPIC: ".toList)
  ++ topic

/-- Python `int(x or d)` for `x : Optional[int]`: both `None` and `0` are
falsy and give the default. -/
def pyIntOr (x : Option Int) (d : Int) : Int :=
  match x with
  | none => d
  | some v => if v = 0 then d else v

/-- One request the backend would send to the completion endpoint
(`groq_chat`'s arguments). -/
structure GroqCall where
  prompt : PStr
  model : PStr
  max_tokens : Int
  json_mode : Bool

/-- The `POST /generateDeck` handler `generate_deck` from
`backend/main.py`.  The remote completion endpoint is external: `raw1` and
`raw2` are the completion texts its first and second call would return, and
the calls actually issued are returned alongside the result. -/
def generate_deck (req_topic : PStr) (req_slideCount : Option Int)
    (raw1 raw2 : PStr) : Except PyErr (List JsonObj) × List GroqCall :=
  let topic := pyStrip req_topic
  let n : Int := pyIntOr req_slideCount 5
  if topic = [] then
    (.error (.httpException 400 (.msg ("topic is required".toList))), [])
  else if n < 3 ∨ n > 15 then
    (.error (.httpException 400 (.msg ("slideCount must be between 3 and 15".toList))), [])
  else
    let model := "llama-3.1-8b-instant".toList
    let max_tokens := estimate_max_tokens n
    let prompt := build_prompt topic n
    let call1 : GroqCall := ⟨prompt, model, max_tokens, true⟩
    match safe_json_load raw1 with
    | .error e => (.error e, [call1])
    | .ok decoded1 =>
      match normalize_slides decoded1 n with
      | .error e => (.error e, [call1])
      | .ok (some slides) => (.ok slides, [call1])
      | .ok none =>
        let retry_prompt := build_retry_prompt topic n
        let call2 : GroqCall := ⟨retry_prompt, model, max_tokens + 1200, true⟩
        match safe_json_load raw2 with
        | .error e => (.error e, [call1, call2])
        | .ok decoded2 =>
          match normalize_slides decoded2 n with
          | .error e => (.error e, [call1, call2])
          | .ok (some slides) => (.ok slides, [call1, call2])
          | .ok none =>
            (.error (.httpException 500
              (.inconsistent
                (("Model output inconsistent. Expected ".toList) ++ (toString n).toList ++ (" slides.".toList))
                ((pyStr decoded1).take 900)
                ((pyStr decoded2).take 900))), [call1, call2])

/-- ReportLab's `cm` unit in points, as an exact rational
(`72 / 2.54`). -/
def cm : ℚ := 3600 / 127

/-- A4 page width in points (`21.0 * cm`). -/
def A4width : ℚ := 21 * cm

/-- A4 page height in points (`29.7 * cm`). -/
def A4height : ℚ := 29.7 * cm

/-- The logo asset path (`backend/assets/logo.png`). -/
def logoPath : String := "backend/assets/logo.png"

/-- One ReportLab canvas operation, as issued by `build_pdf`. -/
inductive CanvasOp where
  | setFillColor (color : String)
  | setStrokeColor (color : String)
  | setFont (font : String) (size : ℚ)
  | setLineWidth (w : ℚ)
  | rect (x y w h : ℚ) (fill : Bool)
  | drawImage (path : String) (x y w h : ℚ)
  | drawCentredString (x y : ℚ) (s : PStr)
  | drawRightString (x y : ℚ) (s : PStr)
  | drawString (x y : ℚ) (s : PStr)
  | line (x1 y1 x2 y2 : ℚ)

/-- A physical page: the ordered operations drawn on it. -/
abbrev Page := List CanvasOp

/-- The accumulation loop of `wrap_text`: `current` is the line being
built, a word that does not fit flushes it. -/
def wrapLoop (max_chars : Nat) : List PStr → PStr → List PStr
  | [], current => if current = [] then [] else [current]
  | w :: ws, current =>
    if current.length + w.length + 1 ≤ max_chars then
      wrapLoop max_chars ws (pyStrip (current ++ ' ' :: w))
    else
      if current = [] then wrapLoop max_chars ws w
      else current :: wrapLoop max_chars ws w

/-- `wrap_text` from `backend/main.py`: split into whitespace-separated
words and greedily fill lines of at most `max_chars` characters. -/
def wrap_text (text : PStr) (max_chars : Nat) : List PStr :=
  wrapLoop max_chars (pySplitWs text) []

/-- The title page of `build_pdf` (`os.path.exists(LOGO_PATH)` is the
external parameter `logo_exists`). -/
def titlePageOps (logo_exists : Bool) (topic : PStr) : Page :=
  [.setFillColor "black", .rect 0 0 A4width A4height true]
  ++ (if logo_exists then
        [.drawImage logoPath ((A4width - 16 * cm) / 2) (A4height - 7 * cm) (16 * cm) (4 * cm)]
      else [])
  ++ [.setFillColor "white", .setFont "Helvetica-Bold" 28,
      .drawCentredString (A4width / 2) (A4height - 10.2 * cm) ("SprintSlidesAI".toList),
      .setFont "Helvetica" 16, .setFillColor "#9CA3AF",
      .drawCentredString (A4width / 2) (A4height - 11.5 * cm) ("Topic: ".toList ++ topic),
      .setFont "Helvetica" 11, .setFillColor "#6B7280",
      .drawCentredString (A4width / 2) (2.2 * cm) ("Generated using Groq + FastAPI".toList)]

/-- The header drawn at the top of each slide's first page: background,
logo, `i / total` counter, type badge, title, divider, and the content
fill colour and font. -/
def slideHeaderOps (logo_exists : Bool) (i total : Nat) (slide_type title : PStr) : Page :=
  [.setFillColor "#0A0D14", .rect 0 0 A4width A4height true]
  ++ (if logo_exists then
        [.drawImage logoPath (1.4 * cm) (A4height - 2.2 * cm) (5.5 * cm) (1.35 * cm)]
      else [])
  ++ [.setFillColor "#9CA3AF", .setFont "Helvetica" 10,
      .drawRightString (A4width - 1.6 * cm) (A4height - 1.7 * cm)
        ((toString i).toList ++ " / ".toList ++ (toString total).toList),
      .setFillColor "#6366F1", .setFont "Helvetica-Bold" 11,
      .drawString (1.5 * cm) (A4height - 3.2 * cm) (pyUpper slide_type),
      .setFillColor "white", .setFont "Helvetica-Bold" 22,
      .drawString (1.5 * cm) (A4height - 4.5 * cm) title,
      .setStrokeColor "#6366F1", .setLineWidth 2,
      .line (1.5 * cm) (A4height - 5.0 * cm) (6.0 * cm) (A4height - 5.0 * cm),
      .setFillColor "#D1D5DB", .setFont "Helvetica" 12]

/-- The operations starting a continuation page after an overflow:
background, header logo, and the restored content colour and font. -/
def contPageOps (logo_exists : Bool) : Page :=
  [.setFillColor "#0A0D14", .rect 0 0 A4width A4height true]
  ++ (if logo_exists then
        [.drawImage logoPath (1.4 * cm) (A4height - 2.2 * cm) (5.5 * cm) (1.35 * cm)]
      else [])
  ++ [.setFillColor "#D1D5DB", .setFont "Helvetica" 12]

/-- The footer drawn on the last physical page of each slide. -/
def footerOps : Page :=
  [.setFillColor "#6B7280", .setFont "Helvetica" 10,
   .drawCentredString (A4width / 2) (1.4 * cm) ("SprintSlidesAI • Study smarter ⚡".toList)]

/-- The inner `for line in wrapped` loop of `build_pdf`: before drawing a
line, if the cursor `y` has crossed the bottom margin `2.5 * cm`, the
current page is emitted and a continuation page is started with the cursor
reset to `A4height - 3.0 * cm`; each drawn line advances the cursor by
`14` points.  State: cursor, current page, finished pages. -/
def drawLines (logo_exists : Bool) :
    List PStr → ℚ → Page → List Page → ℚ × Page × List Page
  | [], y, cur, pages => (y, cur, pages)
  | line :: rest, y, cur, pages =>
    if y < 2.5 * cm then
      drawLines logo_exists rest ((A4height - 3.0 * cm) - 14)
        (contPageOps logo_exists ++ [.drawString (1.7 * cm) (A4height - 3.0 * cm) line])
        (pages ++ [cur])
    else
      drawLines logo_exists rest (y - 14) (cur ++ [.drawString (1.7 * cm) y line]) pages

/-- The outer `for block in blocks` loop of `build_pdf`: an empty
(stripped) block moves the cursor down 10 points, a non-empty block is
word-wrapped to 95 characters and drawn by `drawLines`. -/
def drawBlocks (logo_exists : Bool) :
    List PStr → ℚ → Page → List Page → ℚ × Page × List Page
  | [], y, cur, pages => (y, cur, pages)
  | block :: rest, y, cur, pages =>
    let b := pyStrip block
    if b = [] then drawBlocks logo_exists rest (y - 10) cur pages
    else
      let r := drawLines logo_exists (wrap_text b 95) y cur pages
      drawBlocks logo_exists rest r.1 r.2.1 r.2.2

/-- `str(s.get("type", "slide")).replace("_", " ").title()` from
`build_pdf`'s slide loop. -/
def pdf_slide_type (s : JsonObj) : PStr :=
  pyTitle (pyReplaceChar (pyStr ((objGet s ("type".toList)).getD (Json.str ("slide".toList)))) '_' ' ')

/-- `str(s.get("title", "Untitled")).strip()` from `build_pdf`'s slide
loop. -/
def pdf_title (s : JsonObj) : PStr :=
  pyStrip (pyStr ((objGet s ("title".toList)).getD (Json.str ("Untitled".toList))))

/-- `str(s.get("content", "")).strip()` from `build_pdf`'s slide loop. -/
def pdf_content (s : JsonObj) : PStr :=
  pyStrip (pyStr ((objGet s ("content".toList)).getD (Json.str [])))

/-- One iteration of `build_pdf`'s slide loop: the physical pages produced
for slide number `i` of `total`. -/
def renderSlide (logo_exists : Bool) (total i : Nat) (s : JsonObj) : List Page :=
  let blocks := pySplitSep '\n' (pdf_content s)
  let r := drawBlocks logo_exists blocks (A4height - 6.0 * cm)
    (slideHeaderOps logo_exists i total (pdf_slide_type s) (pdf_title s)) []
  r.2.2 ++ [r.2.1 ++ footerOps]

/-- `build_pdf` from `backend/main.py`: the title page followed by each
slide's pages.  The resulting page list stands for the PDF byte string
(ReportLab's serialisation is outside the model). -/
def build_pdf (logo_exists : Bool) (topic : PStr) (slides : List JsonObj) : List Page :=
  titlePageOps logo_exists topic ::
    ((slides.enumFrom 1).map fun p => renderSlide logo_exists slides.length p.1 p.2).flatten

/-- A FastAPI `Response` with PDF media type and a content-disposition
filename. -/
structure PdfResponse where
  body : List Page
  media_type : PStr
  filename : PStr

/-- The `POST /downloadPdf` handler `download_pdf` from `backend/main.py`
(the `isinstance(slides, list)` check always holds in the model since
pydantic has already validated the request body). -/
def download_pdf (logo_exists : Bool) (req_topic : PStr) (req_slides : List JsonObj) :
    Except PyErr PdfResponse :=
  let topic := pyStrip req_topic
  let slides := req_slides
  if topic = [] then .error (.httpException 400 (.msg ("topic is required".toList)))
  else if slides.length = 0 then .error (.httpException 400 (.msg ("slides list is required".toList)))
  else
    .ok ⟨build_pdf logo_exists topic slides,
         "application/pdf".toList,
         "SprintSlidesAI_".toList ++ pyReplaceChar topic ' ' '_' ++ ".pdf".toList⟩

/-- The `GET /downloadPdf` handler `download_pdf_get` from
`backend/main.py`: it re-runs deck generation server-side (same duplicated
logic as `generate_deck`) and renders the PDF.  As for `generate_deck`,
`raw1`/`raw2` are the completion texts of the (up to two) remote calls and
the issued calls are returned. -/
def download_pdf_get (logo_exists : Bool) (req_topic : PStr) (req_slideCount : Option Int)
    (raw1 raw2 : PStr) : Except PyErr PdfResponse × List GroqCall :=
  let topic := pyStrip req_topic
  let n : Int := pyIntOr req_slideCount 5
  if topic = [] then
    (.error (.httpException 400 (.msg ("topic is required".toList))), [])
  else if n < 3 ∨ n > 15 then
    (.error (.httpException 400 (.msg ("slideCount must be between 3 and 15".toList))), [])
  else
    let model := "llama-3.1-8b-instant".toList
    let max_tokens := estimate_max_tokens n
    let prompt := build_prompt topic n
    let call1 : GroqCall := ⟨prompt, model, max_tokens, true⟩
    match safe_json_load raw1 with
    | .error e => (.error e, [call1])
    | .ok decoded1 =>
      match normalize_slides decoded1 n with
      | .error e => (.error e, [call1])
      | .ok (some slides) =>
        (.ok ⟨build_pdf logo_exists topic slides,
              "application/pdf".toList,
              "SprintSlidesAI_".toList ++ pyReplaceChar topic ' ' '_' ++ ".pdf".toList⟩, [call1])
      | .ok none =>
        let retry_prompt := build_retry_prompt topic n
        let call2 : GroqCall := ⟨retry_prompt, model, max_tokens + 1200, true⟩
        match safe_json_load raw2 with
        | .error e => (.error e, [call1, call2])
        | .ok decoded2 =>
          match normalize_slides decoded2 n with
          | .error e => (.error e, [call1, call2])
          | .ok (some slides) =>
            (.ok ⟨build_pdf logo_exists topic slides,
                  "application/pdf".toList,
                  "SprintSlidesAI_".toList ++ pyReplaceChar topic ' ' '_' ++ ".pdf".toList⟩, [call1, call2])
          | .ok none =>
            (.error (.httpException 500 (.msg ("Failed to generate slides for PDF".toList))), [call1, call2])

/-- The tail of `normalize_slides` after `decoded.get("slides")` has
succeeded with value `slides0` (a proof-layer restatement;
`normalize_slides (Json.obj ds) n = normalizeTail ((objGet ds ("slides".toList)).getD .null) n`
holds by `rfl`). -/
def normalizeTail (slides0 : Json) (n : Int) : Except PyErr (Option (List JsonObj)) :=
  let slides1 :=
    match slides0 with
    | .obj kvs => Json.arr (kvs.map Prod.snd)
    | j => j
  match slides1 with
  | .arr l0 =>
    let l1 := if (l0.length : Int) > n then pySliceTo l0 n else l0
    if (l1.length : Int) ≠ n then .ok none
    else
      match coerceList l1 with
      | some final => .ok (some final)
      | none => .ok none
  | _ => .ok none

/-- A sample raw completion: a well-formed document with three (empty)
slide objects. -/
def sampleRaw3 : PStr := "\x7b\"slides\": [\x7b\x7d, \x7b\x7d, \x7b\x7d]\x7d".toList

/-- The decoded form of `sampleRaw3`. -/
def sampleDecoded3 : Json :=
  Json.obj [(("slides".toList), Json.arr [Json.obj [], Json.obj [], Json.obj []])]

/-- The slide dict produced from an empty slide object: every field takes
its default. -/
def defaultSlide : JsonObj :=
  [(("type".toList), Json.str ("overview".toList)),
   (("title".toList), Json.str []),
   (("content".toList), Json.str [])]

/-- A sample raw completion with five empty slide objects. -/
def sampleRaw5 : PStr :=
  "\x7b\"slides\": [\x7b\x7d, \x7b\x7d, \x7b\x7d, \x7b\x7d, \x7b\x7d]\x7d".toList

/-- A completion text that is not parseable as JSON after cleanup. -/
def badRaw : PStr := "not json at all".toList

/-- The first completion call both deck-generating endpoints issue
(primary prompt, computed budget). -/
def gcall1 (topic : PStr) (sc : Option Int) : GroqCall :=
  ⟨build_prompt (pyStrip topic) (pyIntOr sc 5), "llama-3.1-8b-instant".toList,
   estimate_max_tokens (pyIntOr sc 5), true⟩

/-- The retry completion call both deck-generating endpoints issue
(retry prompt, budget `+ 1200`). -/
def gcall2 (topic : PStr) (sc : Option Int) : GroqCall :=
  ⟨build_retry_prompt (pyStrip topic) (pyIntOr sc 5), "llama-3.1-8b-instant".toList,
   estimate_max_tokens (pyIntOr sc 5) + 1200, true⟩

/-- The PDF response both download endpoints build from a slide list. -/
def pdfOk (logo_exists : Bool) (topic : PStr) (slides : List JsonObj) : PdfResponse :=
  ⟨build_pdf logo_exists (pyStrip topic) slides,
   "application/pdf".toList,
   "SprintSlidesAI_".toList ++ pyReplaceChar (pyStrip topic) ' ' '_' ++ ".pdf".toList⟩

/-- Wrapping a document in a fenced code block, the way models do
(` ```json ` line before, ` ``` ` line after). -/
def wrapFence (d : PStr) : PStr :=
  "```json\n".toList ++ d ++ "\n```".toList

/-- Extracts the content lines from a page: `build_pdf` draws slide body
lines (and nothing else) with `drawString` at `x = 1.7 * cm`. -/
def contentLineOf : CanvasOp → Option PStr
  | .drawString x _ s => if x = 1.7 * cm then some s else none
  | _ => none

/-- 44 one-character lines — enough content to overflow one page. -/
def manyLines : PStr := (List.replicate 44 ('x' :: '\n' :: [])).flatten

/-- A slide dict whose content is `manyLines`. -/
def tallSlide : JsonObj := [(("content".toList), Json.str manyLines)]

/-! ## Supporting lemmas -/

theorem dropWhile_idem (p : α → Bool) (l : List α) :
    (l.dropWhile p).dropWhile p = l.dropWhile p := by
  induction l with
  | nil => rfl
  | cons a l ih =>
    by_cases h : p a
    · simp [List.dropWhile_cons, h, ih]
    · simp [List.dropWhile_cons, h]

theorem getLast?_dropWhile_of_ne_nil (p : α → Bool) (l : List α)
    (h : l.dropWhile p ≠ []) : (l.dropWhile p).getLast? = l.getLast? := by
  obtain ⟨a, ha⟩ := List.dropWhile_suffix (l := l) p
  conv_rhs => rw [← ha]
  rw [List.getLast?_append]
  cases hd : (l.dropWhile p).getLast? with
  | none => exact absurd (List.getLast?_eq_none_iff.mp hd) h
  | some x => simp

theorem pyStrip_idem (l : PStr) : pyStrip (pyStrip l) = pyStrip l := by
  unfold pyStrip
  have h2 : ((l.rdropWhile isStrWs).dropWhile isStrWs).rdropWhile isStrWs
      = (l.rdropWhile isStrWs).dropWhile isStrWs := by
    rcases hd : (l.rdropWhile isStrWs).dropWhile isStrWs with _ | ⟨c, cs⟩
    · simp [hd]
    · rw [← hd, List.rdropWhile_eq_self_iff]
      intro hne
      have hdne : (l.rdropWhile isStrWs).dropWhile isStrWs ≠ [] := by rw [hd]; simp
      have hmne : l.rdropWhile isStrWs ≠ [] := by
        intro h0
        rw [h0] at hdne
        simp at hdne
      have hlast : ((l.rdropWhile isStrWs).dropWhile isStrWs).getLast?
          = (l.rdropWhile isStrWs).getLast? :=
        getLast?_dropWhile_of_ne_nil _ _ hdne
      rw [List.getLast?_eq_getLast _ hne, List.getLast?_eq_getLast _ hmne] at hlast
      have hnp := List.rdropWhile_last_not isStrWs l hmne
      rw [← Option.some_inj.mp hlast] at hnp
      exact hnp
  rw [h2, dropWhile_idem]

theorem coerceList_length : ∀ l s, coerceList l = some s → s.length = l.length := by
  intro l
  induction l with
  | nil => intro s h; cases h; rfl
  | cons e rest ih =>
    intro s h
    unfold coerceList at h
    cases hc : coerce_slide e with
    | none => rw [hc] at h; cases h
    | some d =>
      rw [hc] at h
      cases hr : coerceList rest with
      | none => rw [hr] at h; cases h
      | some s' =>
        rw [hr] at h
        cases h
        simp [ih s' hr]

theorem coerceList_isObj : ∀ l : List Json, (∀ v ∈ l, v.isObj) → ∃ s, coerceList l = some s := by
  intro l
  induction l with
  | nil => intro _; exact ⟨[], rfl⟩
  | cons e rest ih =>
    intro h
    have he : e.isObj := h e (by simp)
    obtain ⟨s', hs'⟩ := ih fun v hv => h v (by simp [hv])
    cases e with
    | obj kvs =>
      cases hc : coerce_slide (Json.obj kvs) with
      | none => simp [coerce_slide] at hc
      | some d => exact ⟨d :: s', by simp [coerceList, hc, hs']⟩
    | null => simp [Json.isObj] at he
    | bool b => simp [Json.isObj] at he
    | num n => simp [Json.isObj] at he
    | str s => simp [Json.isObj] at he
    | arr xs => simp [Json.isObj] at he

theorem coerceList_of_mem_none : ∀ (l : List Json) (e : Json),
    e ∈ l → coerce_slide e = none → coerceList l = none := by
  intro l
  induction l with
  | nil => intro e he; simp at he
  | cons a rest ih =>
    intro e he hc
    rcases List.mem_cons.mp he with h | h
    · subst h; simp [coerceList, hc]
    · unfold coerceList
      cases ha : coerce_slide a with
      | none => rfl
      | some d => rw [ih e h hc]; rfl

theorem normalize_slides_eq (ds : JsonObj) (n : Int) :
    normalize_slides (Json.obj ds) n
      = normalizeTail ((objGet ds ("slides".toList)).getD .null) n := rfl

theorem normalize_slides_attr (d : Json) (n : Int) (h : d.isObj = false) :
    normalize_slides d n = .error .attributeError := by
  cases d with
  | obj kvs => simp [Json.isObj] at h
  | null => rfl
  | bool b => rfl
  | num m => rfl
  | str s => rfl
  | arr xs => rfl

theorem normalizeTail_obj (kvs : List (PStr × Json)) (n : Int) :
    normalizeTail (Json.obj kvs) n = normalizeTail (Json.arr (kvs.map Prod.snd)) n := rfl

theorem normalizeTail_arr (l0 : List Json) (n : Int) :
    normalizeTail (Json.arr l0) n =
      if ((if (l0.length : Int) > n then pySliceTo l0 n else l0).length : Int) ≠ n then
        .ok none
      else
        match coerceList (if (l0.length : Int) > n then pySliceTo l0 n else l0) with
        | some final => .ok (some final)
        | none => .ok none := rfl

theorem normalizeTail_total (sl : Json) (n : Int) :
    ∃ r, normalizeTail sl n = .ok r := by
  have harr : ∀ l0 : List Json, ∃ r, normalizeTail (Json.arr l0) n = .ok r := by
    intro l0
    rw [normalizeTail_arr]
    by_cases hg : ((if (l0.length : Int) > n then pySliceTo l0 n else l0).length : Int) ≠ n
    · rw [if_pos hg]; exact ⟨none, rfl⟩
    · rw [if_neg hg]
      cases hc : coerceList (if (l0.length : Int) > n then pySliceTo l0 n else l0) with
      | some final => exact ⟨some final, rfl⟩
      | none => exact ⟨none, rfl⟩
  cases sl with
  | arr l0 => exact harr l0
  | obj kvs => rw [normalizeTail_obj]; exact harr _
  | null => exact ⟨none, rfl⟩
  | bool b => exact ⟨none, rfl⟩
  | num m => exact ⟨none, rfl⟩
  | str t => exact ⟨none, rfl⟩

theorem normalize_obj_total (ds : JsonObj) (n : Int) :
    ∃ r, normalize_slides (Json.obj ds) n = .ok r := by
  rw [normalize_slides_eq]
  exact normalizeTail_total _ n

theorem normalizeTail_arr_ok_some (l0 : List Json) (n : Int) (s : List JsonObj)
    (h : normalizeTail (Json.arr l0) n = .ok (some s)) :
    ((if (l0.length : Int) > n then pySliceTo l0 n else l0).length : Int) = n ∧
    coerceList (if (l0.length : Int) > n then pySliceTo l0 n else l0) = some s := by
  rw [normalizeTail_arr] at h
  by_cases hg : ((if (l0.length : Int) > n then pySliceTo l0 n else l0).length : Int) ≠ n
  · rw [if_pos hg] at h; cases h
  · rw [if_neg hg] at h
    push_neg at hg
    refine ⟨hg, ?_⟩
    cases hc : coerceList (if (l0.length : Int) > n then pySliceTo l0 n else l0) with
    | some final => rw [hc] at h; cases h; rfl
    | none => rw [hc] at h; cases h

theorem normalize_ok_some_length (d : Json) (n : Int) (s : List JsonObj)
    (h : normalize_slides d n = .ok (some s)) : (s.length : Int) = n := by
  cases d with
  | null => cases h
  | bool b => cases h
  | num m => cases h
  | str t => cases h
  | arr xs => cases h
  | obj ds =>
    rw [normalize_slides_eq] at h
    generalize hge : (objGet ds ("slides".toList)).getD .null = sl at h
    have harr : ∀ (l0 : List Json), normalizeTail (Json.arr l0) n = .ok (some s) →
        (s.length : Int) = n := by
      intro l0 h0
      obtain ⟨hlen, hco⟩ := normalizeTail_arr_ok_some l0 n s h0
      rw [← hlen, coerceList_length _ _ hco]
    cases sl with
    | arr l0 => exact harr l0 h
    | obj kvs => rw [normalizeTail_obj] at h; exact harr _ h
    | null => cases h
    | bool b => cases h
    | num m => cases h
    | str t => cases h

/-! ## Claim theorems -/

/-- C2 (amended): given raw model output text and an expected slide count
`n`, whenever the decoded document is a mapping the normalizer returns
either a validated slide list or the absence signal `none` — never an
exception — and every successful normalization (for any decoded document)
has length exactly `n`, so no partial deck is ever produced.  (The original
claim's "never throws" fails for parseable non-mapping documents; see the
counterexample.) -/
theorem C2_normalizer_no_partial_decks (raw : PStr) (n : Int) :
    (∀ d kvs, safe_json_load raw = .ok d → d = Json.obj kvs →
      ∃ r, normalize_slides d n = .ok r) ∧
    (∀ d s, safe_json_load raw = .ok d → normalize_slides d n = .ok (some s) →
      (s.length : Int) = n) := by
  constructor
  · intro d kvs _ hd
    subst hd
    exact normalize_obj_total kvs n
  · intro d s _ h2
    exact normalize_ok_some_length d n s h2

/-- C2 counterexample: the claim's "never throws past its boundary" fails
on the parseable non-mapping document `[1, 2]`: decoding succeeds, and
`decoded.get("slides")` then raises `AttributeError` (a Python `list` has
no `.get`), which is neither a validated slide list nor the absence
signal. -/
theorem C2_counterexample_list_document :
    safe_json_load ("[1, 2]".toList) = .ok (Json.arr [Json.num 1, Json.num 2]) ∧
    normalize_slides (Json.arr [Json.num 1, Json.num 2]) 3 = .error .attributeError :=
  ⟨rfl, rfl⟩

/-- C2 witness: on the concrete three-slide document `sampleRaw3` the
amended theorem applies: normalization is exception-free, and the
successful result has length exactly `3`. -/
theorem C2_witness_exact_three :
    (∃ r, normalize_slides sampleDecoded3 3 = .ok r) ∧
    ((([defaultSlide, defaultSlide, defaultSlide] : List JsonObj).length : Int) = 3) :=
  ⟨(C2_normalizer_no_partial_decks sampleRaw3 3).1 sampleDecoded3 _ rfl rfl,
   (C2_normalizer_no_partial_decks sampleRaw3 3).2 sampleDecoded3
     [defaultSlide, defaultSlide, defaultSlide] rfl rfl⟩

/-- C4: a decoded document whose `slides` field is a mapping with `n`
entries normalizes exactly like the document whose `slides` is the array of
that mapping's values in insertion order; when the values are slide
objects the normalization succeeds with those `n` coerced slides in key
order. -/
theorem C4_slides_mapping_normalizes_like_array
    (ds : JsonObj) (kvs : List (PStr × Json)) (n : Int)
    (h : objGet ds ("slides".toList) = some (Json.obj kvs)) :
    (normalize_slides (Json.obj ds) n
       = normalize_slides (Json.obj [(("slides".toList), Json.arr (kvs.map Prod.snd))]) n) ∧
    ((kvs.length : Int) = n → (∀ v ∈ kvs.map Prod.snd, v.isObj) →
      ∃ s, coerceList (kvs.map Prod.snd) = some s ∧
        normalize_slides (Json.obj ds) n = .ok (some s) ∧ s.length = kvs.length) := by
  have he : normalize_slides (Json.obj ds) n = normalizeTail (Json.arr (kvs.map Prod.snd)) n := by
    rw [normalize_slides_eq, h]
    rfl
  have he' : normalize_slides (Json.obj [(("slides".toList), Json.arr (kvs.map Prod.snd))]) n
      = normalizeTail (Json.arr (kvs.map Prod.snd)) n := by
    rw [normalize_slides_eq]
    rfl
  refine ⟨by rw [he, he'], ?_⟩
  intro hlen hobj
  obtain ⟨s, hs⟩ := coerceList_isObj _ hobj
  have hlen' : (((kvs.map Prod.snd).length : Nat) : Int) = n := by
    rw [List.length_map]; exact hlen
  refine ⟨s, hs, ?_, ?_⟩
  · rw [he, normalizeTail_arr]
    have hnot : ¬ (((kvs.map Prod.snd).length : Nat) : Int) > n := by
      rw [hlen']
      exact lt_irrefl n
    simp only [if_neg hnot]
    rw [if_neg (by rw [hlen']; exact fun hne => hne rfl), hs]
  · rw [coerceList_length _ _ hs, List.length_map]

/-- C4 witness: a document whose `slides` is a two-key mapping of empty
slide objects normalizes to the two default slides, exactly as the array
version would. -/
theorem C4_witness_two_key_mapping :
    ∃ s, coerceList ([Json.obj [], Json.obj []]) = some s ∧
      normalize_slides (Json.obj [(("slides".toList),
        Json.obj [(("a".toList), Json.obj []), (("b".toList), Json.obj [])])]) 2 = .ok (some s) ∧
      s.length = ([(("a".toList), Json.obj []), (("b".toList), Json.obj [])] : List (PStr × Json)).length := by
  have h := (C4_slides_mapping_normalizes_like_array
    [(("slides".toList), Json.obj [(("a".toList), Json.obj []), (("b".toList), Json.obj [])])]
    [(("a".toList), Json.obj []), (("b".toList), Json.obj [])] 2 rfl).2 rfl
    (by decide)
  exact h

/-- C5: a decoded document whose `slides` array has more than `n` entries
normalizes exactly like the document truncated to the first `n` entries;
one with fewer than `n` entries yields the absence signal, never a partial
result. -/
theorem C5_truncation_and_rejection
    (ds : JsonObj) (l : List Json) (n : Int)
    (h : objGet ds ("slides".toList) = some (Json.arr l)) :
    (0 ≤ n → (l.length : Int) > n →
      normalize_slides (Json.obj ds) n
        = normalize_slides (Json.obj [(("slides".toList), Json.arr (l.take n.toNat))]) n) ∧
    ((l.length : Int) < n → normalize_slides (Json.obj ds) n = .ok none) := by
  have he : normalize_slides (Json.obj ds) n = normalizeTail (Json.arr l) n := by
    rw [normalize_slides_eq, h]
    rfl
  constructor
  · intro hn hgt
    have htoNat : n.toNat ≤ l.length := by omega
    have htake : (((l.take n.toNat).length : Nat) : Int) = n := by
      rw [List.length_take, min_eq_left htoNat]
      omega
    have he' : normalize_slides (Json.obj [(("slides".toList), Json.arr (l.take n.toNat))]) n
        = normalizeTail (Json.arr (l.take n.toNat)) n := by
      rw [normalize_slides_eq]
      rfl
    rw [he, he', normalizeTail_arr, normalizeTail_arr]
    simp only [if_pos hgt]
    have hnot : ¬ (((l.take n.toNat).length : Nat) : Int) > n := by
      rw [htake]
      exact lt_irrefl n
    simp only [if_neg hnot]
    have hslice : pySliceTo l n = l.take n.toNat := by
      unfold pySliceTo
      rw [if_neg (by omega)]
    rw [hslice]
  · intro hlt
    rw [he, normalizeTail_arr]
    have hnot : ¬ ((l.length : Nat) : Int) > n := by omega
    simp only [if_neg hnot]
    rw [if_pos (by omega)]

/-- C5 witness: four entries with `n = 3` normalize like the first three;
two entries with `n = 3` yield the absence signal. -/
theorem C5_witness_truncate_four_to_three :
    (normalize_slides (Json.obj [(("slides".toList),
        Json.arr [Json.obj [], Json.obj [], Json.obj [], Json.num 7])]) 3
      = normalize_slides (Json.obj [(("slides".toList),
        Json.arr ([Json.obj [], Json.obj [], Json.obj [], Json.num 7].take ((3 : Int).toNat)))]) 3) ∧
    (normalize_slides (Json.obj [(("slides".toList), Json.arr [Json.obj [], Json.obj []])]) 3
      = .ok none) :=
  ⟨(C5_truncation_and_rejection
      [(("slides".toList), Json.arr [Json.obj [], Json.obj [], Json.obj [], Json.num 7])]
      [Json.obj [], Json.obj [], Json.obj [], Json.num 7] 3 rfl).1 (by omega) (by norm_num),
   (C5_truncation_and_rejection
      [(("slides".toList), Json.arr [Json.obj [], Json.obj []])]
      [Json.obj [], Json.obj []] 3 rfl).2 (by norm_num)⟩

/-- C6: every slide produced by normalization has exactly the three fields
`type`, `title`, `content`, as whitespace-trimmed strings; a missing field
takes the default `"overview"` / `""` / `""`; a non-object entry among the
(truncated) slide entries makes the whole normalization fail; and any
string whatsoever is accepted for `type` (no enum membership check). -/
theorem C6_slide_field_invariants :
    (∀ e s, coerce_slide e = some s →
      ∃ t ti c,
        s = [(("type".toList), Json.str t), (("title".toList), Json.str ti),
             (("content".toList), Json.str c)] ∧
        pyStrip t = t ∧ pyStrip ti = ti ∧ pyStrip c = c) ∧
    (∀ kvs, objGet kvs ("type".toList) = none →
      (coerce_slide (Json.obj kvs)).map (fun s => objGet s ("type".toList))
        = some (some (Json.str ("overview".toList)))) ∧
    (∀ kvs, objGet kvs ("title".toList) = none →
      (coerce_slide (Json.obj kvs)).map (fun s => objGet s ("title".toList))
        = some (some (Json.str []))) ∧
    (∀ kvs, objGet kvs ("content".toList) = none →
      (coerce_slide (Json.obj kvs)).map (fun s => objGet s ("content".toList))
        = some (some (Json.str []))) ∧
    (∀ (ds : JsonObj) (l : List Json) (n : Int) (e : Json),
      objGet ds ("slides".toList) = some (Json.arr l) → 0 ≤ n →
      e ∈ l.take n.toNat → coerce_slide e = none →
      normalize_slides (Json.obj ds) n = .ok none) ∧
    (∀ kvs t, objGet kvs ("type".toList) = some (Json.str t) →
      (coerce_slide (Json.obj kvs)).map (fun s => objGet s ("type".toList))
        = some (some (Json.str (pyStrip t)))) := by
  refine ⟨?_, ?_, ?_, ?_, ?_, ?_⟩
  · intro e s h
    cases e with
    | obj kvs =>
      simp only [coerce_slide, Option.some_inj] at h
      exact ⟨_, _, _, h.symm, pyStrip_idem _, pyStrip_idem _, pyStrip_idem _⟩
    | null => cases h
    | bool b => cases h
    | num m => cases h
    | str t => cases h
    | arr xs => cases h
  · intro kvs h
    simp only [coerce_slide, h, Option.getD, Option.map, objGet, if_pos]
    rfl
  · intro kvs h
    simp only [coerce_slide, h, Option.getD, Option.map, objGet]
    norm_num
    rfl
  · intro kvs h
    simp only [coerce_slide, h, Option.getD, Option.map, objGet]
    norm_num
    rfl
  · intro ds l n e h hn hmem hnone
    have he : normalize_slides (Json.obj ds) n = normalizeTail (Json.arr l) n := by
      rw [normalize_slides_eq, h]
      rfl
    rw [he, normalizeTail_arr]
    have hmem' : e ∈ (if (l.length : Int) > n then pySliceTo l n else l) := by
      by_cases hgt : (l.length : Int) > n
      · rw [if_pos hgt]
        unfold pySliceTo
        rw [if_neg (by omega)]
        exact hmem
      · rw [if_neg hgt]
        exact List.take_subset _ _ hmem
    by_cases hg : (((if (l.length : Int) > n then pySliceTo l n else l).length : Nat) : Int) ≠ n
    · rw [if_pos hg]
    · rw [if_neg hg, coerceList_of_mem_none _ e hmem' hnone]
  · intro kvs t h
    simp only [coerce_slide, h, Option.getD, Option.map, objGet, if_pos]
    rfl

/-- C6 witness: the empty slide object takes the default `type`
`"overview"`, and a slide whose `type` is the (non-enum) string
`" custom_type "` is accepted with that string trimmed. -/
theorem C6_witness_defaults_and_lax_type :
    ((coerce_slide (Json.obj [])).map (fun s => objGet s ("type".toList))
       = some (some (Json.str ("overview".toList)))) ∧
    ((coerce_slide (Json.obj [(("type".toList), Json.str (" custom_type ".toList))])).map
        (fun s => objGet s ("type".toList))
       = some (some (Json.str (pyStrip (" custom_type ".toList))))) :=
  ⟨C6_slide_field_invariants.2.1 [] rfl,
   C6_slide_field_invariants.2.2.2.2.2 [(("type".toList), Json.str (" custom_type ".toList))]
     (" custom_type ".toList) rfl⟩

/-- C3 (amended): an empty (trimmed) topic, or an explicit nonzero
`slideCount` outside `[3, 15]`, is rejected with a 400 validation error
before any remote call (no `GroqCall` is issued); a request that passes
validation always issues a remote call; an omitted `slideCount` defaults
to `5`; and — the amendment — `slideCount = 0` is *not* rejected: being
falsy in Python, `int(req.slideCount or 5)` silently turns it into the
default `5`. -/
theorem C3_request_validation (topic : PStr) (sc : Option Int) (raw1 raw2 : PStr) :
    (pyStrip topic = [] →
      generate_deck topic sc raw1 raw2
        = (.error (.httpException 400 (.msg ("topic is required".toList))), [])) ∧
    (∀ k, sc = some k → k ≠ 0 → (k < 3 ∨ k > 15) → pyStrip topic ≠ [] →
      generate_deck topic sc raw1 raw2
        = (.error (.httpException 400 (.msg ("slideCount must be between 3 and 15".toList))), [])) ∧
    (pyStrip topic ≠ [] → 3 ≤ pyIntOr sc 5 → pyIntOr sc 5 ≤ 15 →
      (generate_deck topic sc raw1 raw2).2 ≠ []) ∧
    (generate_deck topic none raw1 raw2 = generate_deck topic (some 5) raw1 raw2) ∧
    (generate_deck topic (some 0) raw1 raw2 = generate_deck topic (some 5) raw1 raw2) := by
  have h5 : pyIntOr (some 5) 5 = 5 := by norm_num [pyIntOr]
  have h0 : pyIntOr (some 0) 5 = 5 := by norm_num [pyIntOr]
  have hnone : pyIntOr none 5 = 5 := rfl
  refine ⟨?_, ?_, ?_, by unfold generate_deck; rw [hnone, h5],
    by unfold generate_deck; rw [h0, h5]⟩
  · intro h
    unfold generate_deck
    rw [if_pos h]
  · intro k hk hk0 hrange hne
    subst hk
    unfold generate_deck
    have hk' : pyIntOr (some k) 5 = k := by simp [pyIntOr, hk0]
    rw [hk', if_neg hne, if_pos hrange]
  · intro h1 h2 h3
    unfold generate_deck
    rw [if_neg h1, if_neg (by omega : ¬(pyIntOr sc 5 < 3 ∨ pyIntOr sc 5 > 15))]
    cases hs1 : safe_json_load raw1 with
    | error e => simp
    | ok d1 =>
      cases hn1 : normalize_slides d1 (pyIntOr sc 5) with
      | error e => simp [hn1]
      | ok o =>
        cases o with
        | some slides => simp [hn1]
        | none =>
          cases hs2 : safe_json_load raw2 with
          | error e => simp [hn1, hs2]
          | ok d2 =>
            cases hn2 : normalize_slides d2 (pyIntOr sc 5) with
            | error e => simp [hn1, hs2, hn2]
            | ok o2 => cases o2 <;> simp [hn1, hs2, hn2]

/-- C3 counterexample: `slideCount = 0` lies outside `[3, 15]` but is not
rejected — `int(req.slideCount or 5)` coerces the falsy `0` to the default
`5`, a remote call is issued and a 5-slide deck is returned. -/
theorem C3_counterexample_slideCount_zero :
    (generate_deck ("Biology".toList) (some 0) sampleRaw5 []).2.length = 1 ∧
    (generate_deck ("Biology".toList) (some 0) sampleRaw5 []).1
      = .ok [defaultSlide, defaultSlide, defaultSlide, defaultSlide, defaultSlide] :=
  ⟨rfl, rfl⟩

/-- C3 witness: whitespace topic rejected; `slideCount` 2 and 16 rejected
with no remote call; 3 and 15 accepted (a remote call is made); omitted
`slideCount` behaves as 5. -/
theorem C3_witness_boundaries :
    (generate_deck ([' '] : PStr) (some 5) badRaw badRaw
       = (.error (.httpException 400 (.msg ("topic is required".toList))), [])) ∧
    (generate_deck ("T".toList) (some 2) badRaw badRaw
       = (.error (.httpException 400 (.msg ("slideCount must be between 3 and 15".toList))), [])) ∧
    (generate_deck ("T".toList) (some 16) badRaw badRaw
       = (.error (.httpException 400 (.msg ("slideCount must be between 3 and 15".toList))), [])) ∧
    ((generate_deck ("T".toList) (some 3) badRaw badRaw).2 ≠ []) ∧
    ((generate_deck ("T".toList) (some 15) badRaw badRaw).2 ≠ []) ∧
    (generate_deck ("T".toList) none badRaw badRaw
       = generate_deck ("T".toList) (some 5) badRaw badRaw) :=
  ⟨(C3_request_validation [' '] (some 5) badRaw badRaw).1 (by decide),
   (C3_request_validation ("T".toList) (some 2) badRaw badRaw).2.1 2 rfl (by decide)
     (by norm_num) (by decide),
   (C3_request_validation ("T".toList) (some 16) badRaw badRaw).2.1 16 rfl (by decide)
     (by norm_num) (by decide),
   (C3_request_validation ("T".toList) (some 3) badRaw badRaw).2.2.1 (by decide) (by decide)
     (by decide),
   (C3_request_validation ("T".toList) (some 15) badRaw badRaw).2.2.1 (by decide) (by decide)
     (by decide),
   (C3_request_validation ("T".toList) none badRaw badRaw).2.2.2.1⟩

/-- C1 (amended): a completion text that is unparseable after cleanup on
attempt 1 is terminal *immediately*: the invalid-JSON `HTTPException`
propagates, exactly one completion call is made and no retry happens.
The single retry (stricter prompt, budget `+ 1200`) is triggered only by a
shape-normalization failure of a successfully decoded attempt 1, and only
when both attempts decode but fail normalization does generation end with
the structured error previewing both attempts. -/
theorem C1_decode_error_terminal (topic : PStr) (sc : Option Int) (raw1 raw2 : PStr)
    (htopic : pyStrip topic ≠ []) (h3 : 3 ≤ pyIntOr sc 5) (h15 : pyIntOr sc 5 ≤ 15) :
    (∀ e, safe_json_load raw1 = .error e →
      generate_deck topic sc raw1 raw2
        = (.error e,
           [⟨build_prompt (pyStrip topic) (pyIntOr sc 5), "llama-3.1-8b-instant".toList,
             estimate_max_tokens (pyIntOr sc 5), true⟩])) ∧
    (∀ d1 d2, safe_json_load raw1 = .ok d1 → normalize_slides d1 (pyIntOr sc 5) = .ok none →
      safe_json_load raw2 = .ok d2 → normalize_slides d2 (pyIntOr sc 5) = .ok none →
      generate_deck topic sc raw1 raw2
        = (.error (.httpException 500 (.inconsistent
             (("Model output inconsistent. Expected ".toList)
               ++ (toString (pyIntOr sc 5)).toList ++ (" slides.".toList))
             ((pyStr d1).take 900) ((pyStr d2).take 900))),
           [⟨build_prompt (pyStrip topic) (pyIntOr sc 5), "llama-3.1-8b-instant".toList,
             estimate_max_tokens (pyIntOr sc 5), true⟩,
            ⟨build_retry_prompt (pyStrip topic) (pyIntOr sc 5), "llama-3.1-8b-instant".toList,
             estimate_max_tokens (pyIntOr sc 5) + 1200, true⟩])) := by
  constructor
  · intro e he
    unfold generate_deck
    rw [if_neg htopic, if_neg (by omega : ¬(pyIntOr sc 5 < 3 ∨ pyIntOr sc 5 > 15))]
    simp [he]
  · intro d1 d2 hs1 hn1 hs2 hn2
    unfold generate_deck
    rw [if_neg htopic, if_neg (by omega : ¬(pyIntOr sc 5 < 3 ∨ pyIntOr sc 5 > 15))]
    simp [hs1, hn1, hs2, hn2]

/-- C1 counterexample: with an unparseable attempt-1 completion the claim
predicts a retry (two calls) and a both-attempts error only after both
fail; the code instead makes exactly one call and fails with the
invalid-JSON error naming only the attempt-1 preview — even though the
attempt-2 completion (`sampleRaw3`) would have normalized successfully. -/
theorem C1_counterexample_no_retry_on_decode_error :
    Json.parse (force_json_only (strip_markdown_fences badRaw)) = none ∧
    (generate_deck ("Photosynthesis".toList) (some 3) badRaw sampleRaw3).2.length = 1 ∧
    (generate_deck ("Photosynthesis".toList) (some 3) badRaw sampleRaw3).1
      = .error (.httpException 500 (.invalidJson ("Invalid JSON from model".toList) badRaw)) ∧
    normalize_slides sampleDecoded3 3 = .ok (some [defaultSlide, defaultSlide, defaultSlide]) :=
  ⟨rfl, rfl, rfl, rfl⟩

/-- C1 witness: the amended theorem applied to concrete runs — an
unparseable attempt 1 gives the one-call invalid-JSON terminal error, and
two decoded-but-shapeless attempts (`{}`) give the two-call structured
error previewing both. -/
theorem C1_witness_terminal_paths :
    (generate_deck ("T".toList) (some 3) badRaw ("\x7b\x7d".toList)
       = (.error (.httpException 500 (.invalidJson ("Invalid JSON from model".toList) badRaw)),
          [⟨build_prompt (pyStrip ("T".toList)) (pyIntOr (some 3) 5), "llama-3.1-8b-instant".toList,
            estimate_max_tokens (pyIntOr (some 3) 5), true⟩])) ∧
    (generate_deck ("T".toList) (some 3) ("\x7b\x7d".toList) ("\x7b\x7d".toList)
       = (.error (.httpException 500 (.inconsistent
            (("Model output inconsistent. Expected ".toList)
              ++ (toString (pyIntOr (some 3) 5)).toList ++ (" slides.".toList))
            ((pyStr (Json.obj [])).take 900) ((pyStr (Json.obj [])).take 900))),
          [⟨build_prompt (pyStrip ("T".toList)) (pyIntOr (some 3) 5), "llama-3.1-8b-instant".toList,
            estimate_max_tokens (pyIntOr (some 3) 5), true⟩,
           ⟨build_retry_prompt (pyStrip ("T".toList)) (pyIntOr (some 3) 5), "llama-3.1-8b-instant".toList,
            estimate_max_tokens (pyIntOr (some 3) 5) + 1200, true⟩])) :=
  ⟨(C1_decode_error_terminal ("T".toList) (some 3) badRaw ("\x7b\x7d".toList)
      (by decide) (by decide) (by decide)).1 _ rfl,
   (C1_decode_error_terminal ("T".toList) (some 3) ("\x7b\x7d".toList) ("\x7b\x7d".toList)
      (by decide) (by decide) (by decide)).2 (Json.obj []) (Json.obj []) rfl rfl rfl rfl⟩

theorem safe_json_load_eq (raw : PStr) :
    safe_json_load raw =
      match Json.parse (force_json_only (strip_markdown_fences raw)) with
      | some j => .ok j
      | none =>
        .error (.httpException 500 (.invalidJson ("Invalid JSON from model".toList)
          ((force_json_only (strip_markdown_fences raw)).take 900))) := rfl

theorem safe_json_load_error_shape (raw : PStr) (e : PyErr)
    (h : safe_json_load raw = .error e) :
    e = .httpException 500 (.invalidJson ("Invalid JSON from model".toList)
          ((force_json_only (strip_markdown_fences raw)).take 900)) := by
  rw [safe_json_load_eq] at h
  cases hp : Json.parse (force_json_only (strip_markdown_fences raw)) with
  | some j => rw [hp] at h; cases h
  | none =>
    rw [hp] at h
    injection h with h
    exact h.symm

theorem normalize_slides_error_shape (d : Json) (n : Int) (e : PyErr)
    (h : normalize_slides d n = .error e) : e = .attributeError := by
  cases d with
  | obj ds =>
    obtain ⟨r, hr⟩ := normalize_obj_total ds n
    rw [hr] at h
    cases h
  | null => injection h with h; exact h.symm
  | bool b => injection h with h; exact h.symm
  | num m => injection h with h; exact h.symm
  | str t => injection h with h; exact h.symm
  | arr xs => injection h with h; exact h.symm

theorem generate_deck_invalid (topic : PStr) (sc : Option Int) (raw1 raw2 : PStr) :
    (pyStrip topic = [] →
      generate_deck topic sc raw1 raw2
        = (.error (.httpException 400 (.msg ("topic is required".toList))), [])) ∧
    (pyStrip topic ≠ [] → (pyIntOr sc 5 < 3 ∨ pyIntOr sc 5 > 15) →
      generate_deck topic sc raw1 raw2
        = (.error (.httpException 400 (.msg ("slideCount must be between 3 and 15".toList))), [])) := by
  constructor
  · intro h
    unfold generate_deck
    rw [if_pos h]
  · intro ht hn
    unfold generate_deck
    rw [if_neg ht, if_pos hn]

theorem download_pdf_get_invalid (logo : Bool) (topic : PStr) (sc : Option Int) (raw1 raw2 : PStr) :
    (pyStrip topic = [] →
      download_pdf_get logo topic sc raw1 raw2
        = (.error (.httpException 400 (.msg ("topic is required".toList))), [])) ∧
    (pyStrip topic ≠ [] → (pyIntOr sc 5 < 3 ∨ pyIntOr sc 5 > 15) →
      download_pdf_get logo topic sc raw1 raw2
        = (.error (.httpException 400 (.msg ("slideCount must be between 3 and 15".toList))), [])) := by
  constructor
  · intro h
    unfold download_pdf_get
    rw [if_pos h]
  · intro ht hn
    unfold download_pdf_get
    rw [if_neg ht, if_pos hn]

theorem generate_deck_run (topic : PStr) (sc : Option Int) (raw1 raw2 : PStr)
    (ht : pyStrip topic ≠ []) (hn : ¬(pyIntOr sc 5 < 3 ∨ pyIntOr sc 5 > 15)) :
    (∀ e, safe_json_load raw1 = .error e →
      generate_deck topic sc raw1 raw2 = (.error e, [gcall1 topic sc])) ∧
    (∀ d1 e, safe_json_load raw1 = .ok d1 → normalize_slides d1 (pyIntOr sc 5) = .error e →
      generate_deck topic sc raw1 raw2 = (.error e, [gcall1 topic sc])) ∧
    (∀ d1 s, safe_json_load raw1 = .ok d1 → normalize_slides d1 (pyIntOr sc 5) = .ok (some s) →
      generate_deck topic sc raw1 raw2 = (.ok s, [gcall1 topic sc])) ∧
    (∀ d1 e, safe_json_load raw1 = .ok d1 → normalize_slides d1 (pyIntOr sc 5) = .ok none →
      safe_json_load raw2 = .error e →
      generate_deck topic sc raw1 raw2 = (.error e, [gcall1 topic sc, gcall2 topic sc])) ∧
    (∀ d1 d2 e, safe_json_load raw1 = .ok d1 → normalize_slides d1 (pyIntOr sc 5) = .ok none →
      safe_json_load raw2 = .ok d2 → normalize_slides d2 (pyIntOr sc 5) = .error e →
      generate_deck topic sc raw1 raw2 = (.error e, [gcall1 topic sc, gcall2 topic sc])) ∧
    (∀ d1 d2 s, safe_json_load raw1 = .ok d1 → normalize_slides d1 (pyIntOr sc 5) = .ok none →
      safe_json_load raw2 = .ok d2 → normalize_slides d2 (pyIntOr sc 5) = .ok (some s) →
      generate_deck topic sc raw1 raw2 = (.ok s, [gcall1 topic sc, gcall2 topic sc])) ∧
    (∀ d1 d2, safe_json_load raw1 = .ok d1 → normalize_slides d1 (pyIntOr sc 5) = .ok none →
      safe_json_load raw2 = .ok d2 → normalize_slides d2 (pyIntOr sc 5) = .ok none →
      generate_deck topic sc raw1 raw2
        = (.error (.httpException 500 (.inconsistent
            (("Model output inconsistent. Expected ".toList)
              ++ (toString (pyIntOr sc 5)).toList ++ (" slides.".toList))
            ((pyStr d1).take 900) ((pyStr d2).take 900))),
           [gcall1 topic sc, gcall2 topic sc])) := by
  refine ⟨?_, ?_, ?_, ?_, ?_, ?_, ?_⟩ <;> intros <;> unfold generate_deck <;>
    rw [if_neg ht, if_neg hn] <;> simp_all [gcall1, gcall2]

theorem download_pdf_get_run (logo : Bool) (topic : PStr) (sc : Option Int) (raw1 raw2 : PStr)
    (ht : pyStrip topic ≠ []) (hn : ¬(pyIntOr sc 5 < 3 ∨ pyIntOr sc 5 > 15)) :
    (∀ e, safe_json_load raw1 = .error e →
      download_pdf_get logo topic sc raw1 raw2 = (.error e, [gcall1 topic sc])) ∧
    (∀ d1 e, safe_json_load raw1 = .ok d1 → normalize_slides d1 (pyIntOr sc 5) = .error e →
      download_pdf_get logo topic sc raw1 raw2 = (.error e, [gcall1 topic sc])) ∧
    (∀ d1 s, safe_json_load raw1 = .ok d1 → normalize_slides d1 (pyIntOr sc 5) = .ok (some s) →
      download_pdf_get logo topic sc raw1 raw2 = (.ok (pdfOk logo topic s), [gcall1 topic sc])) ∧
    (∀ d1 e, safe_json_load raw1 = .ok d1 → normalize_slides d1 (pyIntOr sc 5) = .ok none →
      safe_json_load raw2 = .error e →
      download_pdf_get logo topic sc raw1 raw2 = (.error e, [gcall1 topic sc, gcall2 topic sc])) ∧
    (∀ d1 d2 e, safe_json_load raw1 = .ok d1 → normalize_slides d1 (pyIntOr sc 5) = .ok none →
      safe_json_load raw2 = .ok d2 → normalize_slides d2 (pyIntOr sc 5) = .error e →
      download_pdf_get logo topic sc raw1 raw2 = (.error e, [gcall1 topic sc, gcall2 topic sc])) ∧
    (∀ d1 d2 s, safe_json_load raw1 = .ok d1 → normalize_slides d1 (pyIntOr sc 5) = .ok none →
      safe_json_load raw2 = .ok d2 → normalize_slides d2 (pyIntOr sc 5) = .ok (some s) →
      download_pdf_get logo topic sc raw1 raw2
        = (.ok (pdfOk logo topic s), [gcall1 topic sc, gcall2 topic sc])) ∧
    (∀ d1 d2, safe_json_load raw1 = .ok d1 → normalize_slides d1 (pyIntOr sc 5) = .ok none →
      safe_json_load raw2 = .ok d2 → normalize_slides d2 (pyIntOr sc 5) = .ok none →
      download_pdf_get logo topic sc raw1 raw2
        = (.error (.httpException 500 (.msg ("Failed to generate slides for PDF".toList))),
           [gcall1 topic sc, gcall2 topic sc])) := by
  refine ⟨?_, ?_, ?_, ?_, ?_, ?_, ?_⟩ <;> intros <;> unfold download_pdf_get <;>
    rw [if_neg ht, if_neg hn] <;> simp_all [gcall1, gcall2, pdfOk]

/-- C10: the deck-generation logic of `GET /downloadPdf` is equivalent to
that of `POST /generateDeck`: for every topic, slide count and pair of
completion responses both apply the same validation, issue the same
completion calls (same prompts, model, budgets, retry policy) and compute
the same slides; they differ only in the final payload — a success is
wrapped as the PDF response, and the both-attempts-failed error is
collapsed to a plain 500 message. -/
theorem C10_get_endpoint_equivalent (logo : Bool) (topic : PStr) (sc : Option Int)
    (raw1 raw2 : PStr) :
    download_pdf_get logo topic sc raw1 raw2
      = ((match (generate_deck topic sc raw1 raw2).1 with
          | .ok slides => .ok (pdfOk logo topic slides)
          | .error (.httpException 500 (.inconsistent _ _ _)) =>
            .error (.httpException 500 (.msg ("Failed to generate slides for PDF".toList)))
          | .error e => .error e),
         (generate_deck topic sc raw1 raw2).2) := by
  by_cases ht : pyStrip topic = []
  · rw [(generate_deck_invalid topic sc raw1 raw2).1 ht,
      (download_pdf_get_invalid logo topic sc raw1 raw2).1 ht]
  · by_cases hn : (pyIntOr sc 5 < 3 ∨ pyIntOr sc 5 > 15)
    · rw [(generate_deck_invalid topic sc raw1 raw2).2 ht hn,
        (download_pdf_get_invalid logo topic sc raw1 raw2).2 ht hn]
    · have g := generate_deck_run topic sc raw1 raw2 ht hn
      have d := download_pdf_get_run logo topic sc raw1 raw2 ht hn
      cases hs1 : safe_json_load raw1 with
      | error e =>
        have he := safe_json_load_error_shape raw1 e hs1
        subst he
        rw [g.1 _ hs1, d.1 _ hs1]
      | ok d1 =>
        cases hn1 : normalize_slides d1 (pyIntOr sc 5) with
        | error e =>
          have he := normalize_slides_error_shape d1 (pyIntOr sc 5) e hn1
          subst he
          rw [g.2.1 d1 _ hs1 hn1, d.2.1 d1 _ hs1 hn1]
        | ok o =>
          cases o with
          | some s =>
            rw [g.2.2.1 d1 s hs1 hn1, d.2.2.1 d1 s hs1 hn1]
          | none =>
            cases hs2 : safe_json_load raw2 with
            | error e2 =>
              have he2 := safe_json_load_error_shape raw2 e2 hs2
              subst he2
              rw [g.2.2.2.1 d1 _ hs1 hn1 hs2, d.2.2.2.1 d1 _ hs1 hn1 hs2]
            | ok d2 =>
              cases hn2 : normalize_slides d2 (pyIntOr sc 5) with
              | error e3 =>
                have he3 := normalize_slides_error_shape d2 (pyIntOr sc 5) e3 hn2
                subst he3
                rw [g.2.2.2.2.1 d1 d2 _ hs1 hn1 hs2 hn2,
                  d.2.2.2.2.1 d1 d2 _ hs1 hn1 hs2 hn2]
              | ok o2 =>
                cases o2 with
                | some s2 =>
                  rw [g.2.2.2.2.2.1 d1 d2 s2 hs1 hn1 hs2 hn2,
                    d.2.2.2.2.2.1 d1 d2 s2 hs1 hn1 hs2 hn2]
                | none =>
                  rw [g.2.2.2.2.2.2 d1 d2 hs1 hn1 hs2 hn2,
                    d.2.2.2.2.2.2 d1 d2 hs1 hn1 hs2 hn2]

/-- C9: PDF building is total over the `POST /downloadPdf` interface: for
every non-empty (trimmed) topic and non-empty slide-dict list the endpoint
returns the rendered byte sequence (no exception is possible — the model
of `build_pdf` is a total function), and entries lacking `type`, `title`
or `content` are defaulted to `"slide"` (displayed `"Slide"`),
`"Untitled"` and `""` rather than rejected. -/
theorem C9_download_pdf_total_with_defaults (logo : Bool) (topic : PStr)
    (slides : List JsonObj) (ht : pyStrip topic ≠ []) (hs : slides ≠ []) :
    download_pdf logo topic slides
      = .ok ⟨build_pdf logo (pyStrip topic) slides, "application/pdf".toList,
             "SprintSlidesAI_".toList ++ pyReplaceChar (pyStrip topic) ' ' '_' ++ ".pdf".toList⟩ ∧
    (∀ s : JsonObj, objGet s ("type".toList) = none → pdf_slide_type s = "Slide".toList) ∧
    (∀ s : JsonObj, objGet s ("title".toList) = none → pdf_title s = "Untitled".toList) ∧
    (∀ s : JsonObj, objGet s ("content".toList) = none → pdf_content s = []) := by
  refine ⟨?_, ?_, ?_, ?_⟩
  · unfold download_pdf
    rw [if_neg ht, if_neg (by simpa using hs)]
  · intro s h
    unfold pdf_slide_type
    rw [h]
    rfl
  · intro s h
    unfold pdf_title
    rw [h]
    rfl
  · intro s h
    unfold pdf_content
    rw [h]
    rfl

/-- C9 witness: a request with topic `"T"` and a single empty slide dict
succeeds, and the empty dict takes all three defaults. -/
theorem C9_witness_empty_slide_dict :
    download_pdf true ("T".toList) [[]]
      = .ok ⟨build_pdf true (pyStrip ("T".toList)) [[]], "application/pdf".toList,
             "SprintSlidesAI_".toList ++ pyReplaceChar (pyStrip ("T".toList)) ' ' '_' ++ ".pdf".toList⟩ ∧
    pdf_slide_type [] = "Slide".toList ∧
    pdf_title [] = "Untitled".toList ∧
    pdf_content [] = [] :=
  ⟨(C9_download_pdf_total_with_defaults true ("T".toList) [[]] (by decide) (by simp)).1,
   (C9_download_pdf_total_with_defaults true ("T".toList) [[]] (by decide) (by simp)).2.1 [] rfl,
   (C9_download_pdf_total_with_defaults true ("T".toList) [[]] (by decide) (by simp)).2.2.1 [] rfl,
   (C9_download_pdf_total_with_defaults true ("T".toList) [[]] (by decide) (by simp)).2.2.2 [] rfl⟩

theorem pyStrip_eq_self_of (l : PStr)
    (h1 : l.head?.all (fun c => !isStrWs c) = true)
    (h2 : l.getLast?.all (fun c => !isStrWs c) = true) : pyStrip l = l := by
  unfold pyStrip
  have hr : l.rdropWhile isStrWs = l := by
    rw [List.rdropWhile_eq_self_iff]
    intro hne
    rw [List.getLast?_eq_getLast _ hne] at h2
    simpa using h2
  rw [hr]
  cases l with
  | nil => rfl
  | cons c cs =>
    simp only [List.head?_cons, Option.all_some, Bool.not_eq_true'] at h1
    simp [List.dropWhile_cons, h1]

theorem pyFind_newline_after_prefix (b : PStr) :
    ∀ (a : PStr), (∀ c ∈ a, c ≠ '\n') → pyFind (a ++ '\n' :: b) ['\n'] = some a.length := by
  intro a
  induction a with
  | nil =>
    intro _
    simp [pyFind, List.isPrefixOf]
  | cons c a' ih =>
    intro h
    have hc : c ≠ '\n' := h c (by simp)
    have hpre : (['\n'] : PStr).isPrefixOf ((c :: a') ++ '\n' :: b) = false := by
      simp [List.isPrefixOf_cons₂]
      exact fun he => absurd he.symm hc
    simp only [List.cons_append, pyFind, List.isPrefixOf_cons₂]
    rw [if_neg (by simpa using fun he => absurd he.symm hc)]
    have := ih fun x hx => h x (by simp [hx])
    simp only [List.append_eq]
    rw [this]
    simp [List.length_cons]

theorem pyRFind_none_of_short (sub : PStr) (hs : sub ≠ []) :
    ∀ l : PStr, l.length < sub.length → pyRFind l sub = none := by
  intro l
  induction l with
  | nil =>
    intro _
    unfold pyRFind
    rw [if_neg]
    simp [List.isEmpty_iff, hs]
  | cons c rest ih =>
    intro hl
    unfold pyRFind
    rw [ih (by simp only [List.length_cons] at hl; omega)]
    rw [if_neg]
    intro hp
    have hle := (List.isPrefixOf_iff_prefix.mp hp).length_le
    omega

theorem pyRFind_suffix (sub : PStr) (hs : sub ≠ []) :
    ∀ a : PStr, pyRFind (a ++ sub) sub = some a.length := by
  intro a
  induction a with
  | nil =>
    simp only [List.nil_append]
    cases hsub : sub with
    | nil => exact absurd hsub hs
    | cons s0 srest =>
      unfold pyRFind
      have hshort : pyRFind srest (s0 :: srest) = none := by
        apply pyRFind_none_of_short (s0 :: srest) (by simp)
        simp
      rw [hshort]
      have hp : (s0 :: srest).isPrefixOf (s0 :: srest) = true :=
        List.isPrefixOf_iff_prefix.mpr List.prefix_rfl
      rw [if_pos hp]
      rfl
  | cons c a' ih =>
    simp only [List.cons_append]
    unfold pyRFind
    rw [ih]
    simp

theorem pyStrip_concat_newline (d : PStr) : pyStrip (d ++ ['\n']) = pyStrip d := by
  unfold pyStrip
  rw [List.rdropWhile_concat_pos]
  rfl

theorem strip_markdown_fences_wrapFence (d : PStr) :
    strip_markdown_fences (wrapFence d) = pyStrip d := by
  have h0 : pyStrip (wrapFence d) = wrapFence d := by
    apply pyStrip_eq_self_of
    · rfl
    · show ((("```json\n".toList ++ d) ++ "\n```".toList).getLast?.all fun c => !isStrWs c) = true
      rw [List.getLast?_append]
      rfl
  have hpre : ("```".toList).isPrefixOf (wrapFence d) = true := by
    rw [List.isPrefixOf_iff_prefix]
    exact ⟨"json\n".toList ++ (d ++ "\n```".toList), by simp [wrapFence, List.append_assoc]⟩
  have hfind : pyFind (wrapFence d) ['\n'] = some (("```json".toList).length) := by
    have e1 : wrapFence d = "```json".toList ++ '\n' :: (d ++ "\n```".toList) := by
      simp [wrapFence, List.append_assoc]
    rw [e1]
    exact pyFind_newline_after_prefix _ _ (by decide)
  have hdrop : (wrapFence d).drop (("```json".toList).length + 1) = d ++ "\n```".toList := by
    have e1 : wrapFence d = ("```json".toList ++ ['\n']) ++ (d ++ "\n```".toList) := by
      simp [wrapFence, List.append_assoc]
    rw [e1, show ("```json".toList).length + 1 = ("```json".toList ++ ['\n']).length by simp]
    exact List.drop_left _ _
  have e2 : d ++ "\n```".toList = (d ++ ['\n']) ++ "```".toList := by
    simp [List.append_assoc]
  have hrfind : pyRFind (d ++ "\n```".toList) ("```".toList) = some ((d ++ ['\n']).length) := by
    rw [e2]
    exact pyRFind_suffix _ (by decide) _
  have htake : (d ++ "\n```".toList).take ((d ++ ['\n']).length) = d ++ ['\n'] := by
    rw [e2]
    exact List.take_left _ _
  unfold strip_markdown_fences
  dsimp only
  rw [h0, if_pos hpre]
  simp only [hfind]
  simp only [hdrop]
  simp only [hrfind]
  simp only [htake]
  exact pyStrip_concat_newline d

theorem strip_markdown_fences_no_fence (d : PStr)
    (h : ("```".toList).isPrefixOf (pyStrip d) = false) :
    strip_markdown_fences d = pyStrip d := by
  unfold strip_markdown_fences
  dsimp only
  rw [if_neg (by rw [h]; exact Bool.false_ne_true)]
  exact pyStrip_idem d

/-- C8 (amended): for every document `d` whose stripped text does not
itself begin with a code fence (true of every valid JSON document),
running the cleanup pipeline (fence stripping then brace slicing) on `d`
wrapped in a fenced code block yields *exactly the text that cleaning the
unwrapped `d` yields*, and hence the same JSON parse after cleanup.
Equality with the parse of `d` itself does not hold in general: for
non-object documents the brace slicing can change the parse (see the
counterexample). -/
theorem C8_cleanup_of_wrapped_equals_cleanup (d : PStr)
    (h : ("```".toList).isPrefixOf (pyStrip d) = false) :
    force_json_only (strip_markdown_fences (wrapFence d))
      = force_json_only (strip_markdown_fences d) ∧
    Json.parse (force_json_only (strip_markdown_fences (wrapFence d)))
      = Json.parse (force_json_only (strip_markdown_fences d)) := by
  have hs : strip_markdown_fences (wrapFence d) = strip_markdown_fences d := by
    rw [strip_markdown_fences_wrapFence, strip_markdown_fences_no_fence d h]
  exact ⟨by rw [hs], by rw [hs]⟩

/-- C8 counterexample: the valid JSON document `["{", "}"]` parses, but
cleanup of its fenced wrapping (equally, of the document itself) slices
from the first `{` to the last `}`, producing the unparseable text
`{", "}` — so the parse of the cleaned wrapped document is *not* the parse
of `d`. -/
theorem C8_counterexample_array_document :
    Json.parse ("[\"\x7b\", \"\x7d\"]".toList)
      = some (Json.arr [Json.str ['\x7b'], Json.str ['\x7d']]) ∧
    Json.parse (force_json_only (strip_markdown_fences (wrapFence ("[\"\x7b\", \"\x7d\"]".toList))))
      = none :=
  ⟨rfl, rfl⟩

/-- C8 witness: on the concrete object document `{"a": 1}` the amended
round-trip holds. -/
theorem C8_witness_object_document :
    force_json_only (strip_markdown_fences (wrapFence ("\x7b\"a\": 1\x7d".toList)))
      = force_json_only (strip_markdown_fences ("\x7b\"a\": 1\x7d".toList)) ∧
    Json.parse (force_json_only (strip_markdown_fences (wrapFence ("\x7b\"a\": 1\x7d".toList))))
      = Json.parse (force_json_only (strip_markdown_fences ("\x7b\"a\": 1\x7d".toList))) :=
  C8_cleanup_of_wrapped_equals_cleanup ("\x7b\"a\": 1\x7d".toList) (by decide)

theorem splitWsAux_append_ws (c : Char) (hc : isStrWs c = true) (b : PStr) :
    ∀ (a : PStr) (cur : PStr),
      splitWsAux (a ++ c :: b) cur = splitWsAux a cur ++ splitWsAux b [] := by
  intro a
  induction a with
  | nil =>
    intro cur
    simp only [List.nil_append, splitWsAux, hc]
    by_cases h : cur = []
    · simp [h, splitWsAux]
    · simp [h, splitWsAux]
  | cons x a' ih =>
    intro cur
    simp only [List.cons_append, splitWsAux]
    by_cases hx : isStrWs x
    · simp only [hx, if_true]
      by_cases h : cur = []
      · simp [h, ih]
      · simp [h, ih]
    · simp only [hx]
      simp [ih]

theorem pySplitWs_append_ws (c : Char) (hc : isStrWs c = true) (a b : PStr) :
    pySplitWs (a ++ c :: b) = pySplitWs a ++ pySplitWs b :=
  splitWsAux_append_ws c hc b a []

theorem splitWsAux_all_ws : ∀ (l : PStr), (∀ x ∈ l, isStrWs x = true) →
    splitWsAux l [] = [] := by
  intro l
  induction l with
  | nil => intro _; rfl
  | cons c rest ih =>
    intro h
    simp only [splitWsAux, h c (by simp), if_true]
    exact ih fun x hx => h x (by simp [hx])

theorem splitWsAux_all_non_ws : ∀ (w : PStr), (∀ x ∈ w, isStrWs x = false) →
    ∀ cur, splitWsAux w cur = if cur.reverse ++ w = [] then [] else [cur.reverse ++ w] := by
  intro w
  induction w with
  | nil =>
    intro _ cur
    simp only [splitWsAux, List.append_nil]
    by_cases h : cur = []
    · simp [h]
    · simp [h]
  | cons c w' ih =>
    intro h cur
    simp only [splitWsAux, h c (by simp)]
    rw [if_neg (by simp)]
    rw [ih (fun x hx => h x (by simp [hx])) (c :: cur)]
    simp

theorem pySplitWs_word (w : PStr) (hw : ∀ x ∈ w, isStrWs x = false) (hne : w ≠ []) :
    pySplitWs w = [w] := by
  unfold pySplitWs
  rw [splitWsAux_all_non_ws w hw []]
  simp [hne]

theorem splitWsAux_words : ∀ (l : PStr) (cur : PStr), (∀ x ∈ cur, isStrWs x = false) →
    ∀ w ∈ splitWsAux l cur, w ≠ [] ∧ ∀ x ∈ w, isStrWs x = false := by
  intro l
  induction l with
  | nil =>
    intro cur hcur w hw
    by_cases h : cur = []
    · simp [splitWsAux, h] at hw
    · simp only [splitWsAux] at hw
      rw [if_neg h, List.mem_singleton] at hw
      subst hw
      constructor
      · simpa using h
      · intro x hx
        exact hcur x (by simpa using hx)
  | cons c rest ih =>
    intro cur hcur w hw
    by_cases hc : isStrWs c
    · simp only [splitWsAux, hc, if_true] at hw
      by_cases h : cur = []
      · rw [if_pos h] at hw
        exact ih [] (by simp) w hw
      · rw [if_neg h] at hw
        rcases List.mem_cons.mp hw with h1 | h1
        · subst h1
          refine ⟨by simpa using h, fun x hx => hcur x (by simpa using hx)⟩
        · exact ih [] (by simp) w h1
    · simp only [splitWsAux, hc] at hw
      rw [if_neg (by simp [hc])] at hw
      refine ih (c :: cur) ?_ w hw
      intro x hx
      rcases List.mem_cons.mp hx with h1 | h1
      · subst h1; simpa using hc
      · exact hcur x h1

theorem pySplitWs_words (l : PStr) :
    ∀ w ∈ pySplitWs l, w ≠ [] ∧ ∀ x ∈ w, isStrWs x = false :=
  splitWsAux_words l [] (by simp)

theorem pySplitWs_dropWhile (l : PStr) :
    pySplitWs (l.dropWhile isStrWs) = pySplitWs l := by
  induction l with
  | nil => rfl
  | cons c rest ih =>
    by_cases hc : isStrWs c
    · rw [List.dropWhile_cons_of_pos hc]
      rw [ih]
      show pySplitWs rest = splitWsAux (c :: rest) []
      simp only [splitWsAux, hc, if_true]
      rfl
    · rw [List.dropWhile_cons_of_neg (by simpa using hc)]

theorem pySplitWs_append_all_ws (a t : PStr) (ht : ∀ x ∈ t, isStrWs x = true) :
    pySplitWs (a ++ t) = pySplitWs a := by
  induction t generalizing a with
  | nil => simp
  | cons c t' ih =>
    rw [pySplitWs_append_ws c (ht c (by simp)) a t']
    have : pySplitWs t' = [] := splitWsAux_all_ws t' fun x hx => ht x (by simp [hx])
    rw [this, List.append_nil]

theorem rdropWhile_append_rtakeWhile (p : Char → Bool) (l : PStr) :
    l.rdropWhile p ++ l.rtakeWhile p = l := by
  unfold List.rdropWhile List.rtakeWhile
  rw [← List.reverse_append, List.takeWhile_append_dropWhile, List.reverse_reverse]

theorem pySplitWs_rdropWhile (l : PStr) :
    pySplitWs (l.rdropWhile isStrWs) = pySplitWs l := by
  conv_rhs => rw [← rdropWhile_append_rtakeWhile isStrWs l]
  rw [pySplitWs_append_all_ws]
  intro x hx
  exact List.mem_rtakeWhile_imp hx

theorem pySplitWs_pyStrip (l : PStr) : pySplitWs (pyStrip l) = pySplitWs l := by
  unfold pyStrip
  rw [pySplitWs_dropWhile, pySplitWs_rdropWhile]

theorem wrapLoop_words (mc : Nat) :
    ∀ (ws : List PStr), (∀ w ∈ ws, w ≠ [] ∧ ∀ x ∈ w, isStrWs x = false) →
    ∀ (cur : PStr), (wrapLoop mc ws cur).flatMap pySplitWs = pySplitWs cur ++ ws := by
  intro ws
  induction ws with
  | nil =>
    intro _ cur
    by_cases h : cur = []
    · simp [wrapLoop, h, pySplitWs, splitWsAux]
    · simp [wrapLoop, h]
  | cons w ws' ih =>
    intro h cur
    obtain ⟨hwne, hwword⟩ := h w (by simp)
    have hcur' : pySplitWs (pyStrip (cur ++ ' ' :: w)) = pySplitWs cur ++ [w] := by
      rw [pySplitWs_pyStrip, pySplitWs_append_ws ' ' (by decide) cur w,
        pySplitWs_word w hwword hwne]
    unfold wrapLoop
    by_cases hfit : cur.length + w.length + 1 ≤ mc
    · rw [if_pos hfit]
      rw [ih (fun v hv => h v (by simp [hv])) (pyStrip (cur ++ ' ' :: w))]
      rw [hcur']
      simp
    · rw [if_neg hfit]
      by_cases hc : cur = []
      · rw [if_pos hc]
        rw [ih (fun v hv => h v (by simp [hv])) w]
        rw [pySplitWs_word w hwword hwne, hc]
        simp [pySplitWs, splitWsAux]
      · rw [if_neg hc]
        simp only [List.flatMap_cons]
        rw [ih (fun v hv => h v (by simp [hv])) w]
        rw [pySplitWs_word w hwword hwne]
        simp

theorem wrap_text_words (b : PStr) (mc : Nat) :
    (wrap_text b mc).flatMap pySplitWs = pySplitWs b := by
  unfold wrap_text
  rw [wrapLoop_words mc (pySplitWs b) (pySplitWs_words b) []]
  rfl

theorem contentLineOf_drawString (y : ℚ) (s : PStr) :
    contentLineOf (.drawString (1.7 * cm) y s) = some s := by
  simp [contentLineOf]

theorem x15_ne_x17 : ¬((1.5 : ℚ) * cm = 1.7 * cm) := by
  norm_num [cm]

theorem filterMap_contentLineOf_header (logo : Bool) (i total : Nat) (st ti : PStr) :
    (slideHeaderOps logo i total st ti).filterMap contentLineOf = [] := by
  cases logo <;>
    simp [slideHeaderOps, contentLineOf, List.filterMap_append, x15_ne_x17] <;>
    norm_num [cm]

theorem filterMap_contentLineOf_cont (logo : Bool) :
    (contPageOps logo).filterMap contentLineOf = [] := by
  cases logo <;> simp [contPageOps, contentLineOf, List.filterMap_append]

theorem filterMap_contentLineOf_footer :
    footerOps.filterMap contentLineOf = [] := by
  simp [footerOps, contentLineOf]

theorem drawLines_content (logo : Bool) :
    ∀ (lines : List PStr) (y : ℚ) (cur : Page) (pages : List Page),
      ((drawLines logo lines y cur pages).2.2.flatten
          ++ (drawLines logo lines y cur pages).2.1).filterMap contentLineOf
        = (pages.flatten ++ cur).filterMap contentLineOf ++ lines := by
  intro lines
  induction lines with
  | nil => intro y cur pages; simp [drawLines]
  | cons line rest ih =>
    intro y cur pages
    unfold drawLines
    by_cases hy : y < 2.5 * cm
    · rw [if_pos hy, ih]
      simp [List.filterMap_append, filterMap_contentLineOf_cont, contentLineOf_drawString]
    · rw [if_neg hy, ih]
      simp [List.filterMap_append, contentLineOf_drawString]

theorem drawBlocks_content (logo : Bool) :
    ∀ (blocks : List PStr) (y : ℚ) (cur : Page) (pages : List Page),
      ((drawBlocks logo blocks y cur pages).2.2.flatten
          ++ (drawBlocks logo blocks y cur pages).2.1).filterMap contentLineOf
        = (pages.flatten ++ cur).filterMap contentLineOf
          ++ ((blocks.map pyStrip).filter (fun b => b ≠ [])).flatMap
              (fun b => wrap_text b 95) := by
  intro blocks
  induction blocks with
  | nil => intro y cur pages; simp [drawBlocks]
  | cons block rest ih =>
    intro y cur pages
    unfold drawBlocks
    dsimp only
    by_cases hb : pyStrip block = []
    · rw [if_pos hb, ih]
      simp [hb]
    · rw [if_neg hb, ih, drawLines_content]
      simp [hb]

theorem renderSlide_content (logo : Bool) (total i : Nat) (s : JsonObj) :
    ((renderSlide logo total i s).flatten).filterMap contentLineOf
      = (((pySplitSep '\n' (pdf_content s)).map pyStrip).filter (fun b => b ≠ [])).flatMap
          (fun b => wrap_text b 95) := by
  unfold renderSlide
  dsimp only
  have h := drawBlocks_content logo (pySplitSep '\n' (pdf_content s)) (A4height - 6.0 * cm)
    (slideHeaderOps logo i total (pdf_slide_type s) (pdf_title s)) []
  simp only [List.flatten_nil, List.nil_append, filterMap_contentLineOf_header,
    List.flatten_append, List.flatten_cons, List.flatten_nil, List.append_nil] at h ⊢
  rw [← List.append_assoc, List.filterMap_append, filterMap_contentLineOf_footer,
    List.append_nil]
  exact h

theorem drawLines_pages_mono (logo : Bool) :
    ∀ (lines : List PStr) (y : ℚ) (cur : Page) (pages : List Page),
      pages.length ≤ (drawLines logo lines y cur pages).2.2.length := by
  intro lines
  induction lines with
  | nil => intro y cur pages; exact le_refl _
  | cons line rest ih =>
    intro y cur pages
    unfold drawLines
    by_cases hy : y < 2.5 * cm
    · rw [if_pos hy]
      calc pages.length ≤ (pages ++ [cur]).length := by simp
        _ ≤ _ := ih _ _ _
    · rw [if_neg hy]
      exact ih _ _ _

theorem drawLines_no_break (logo : Bool) :
    ∀ (lines : List PStr) (y : ℚ) (cur : Page) (pages : List Page),
      (drawLines logo lines y cur pages).2.2.length = pages.length →
      (drawLines logo lines y cur pages).1 = y - 14 * lines.length := by
  intro lines
  induction lines with
  | nil => intro y cur pages _; simp [drawLines]
  | cons line rest ih =>
    intro y cur pages h
    unfold drawLines at h ⊢
    by_cases hy : y < 2.5 * cm
    · rw [if_pos hy] at h
      have h1 := drawLines_pages_mono logo rest ((A4height - 3.0 * cm) - 14)
        (contPageOps logo ++ [.drawString (1.7 * cm) (A4height - 3.0 * cm) line])
        (pages ++ [cur])
      rw [h] at h1
      simp at h1
    · rw [if_neg hy] at h ⊢
      rw [ih _ _ _ h]
      simp only [List.length_cons]
      push_cast
      ring

theorem drawLines_break (logo : Bool) :
    ∀ (k : Nat) (lines : List PStr) (y : ℚ) (cur : Page) (pages : List Page),
      y < 2.5 * cm + 14 * k → k + 1 ≤ lines.length →
      pages.length < (drawLines logo lines y cur pages).2.2.length := by
  intro k
  induction k with
  | zero =>
    intro lines y cur pages hy hlen
    cases lines with
    | nil => simp at hlen
    | cons line rest =>
      unfold drawLines
      rw [if_pos (by simpa using hy)]
      calc pages.length < (pages ++ [cur]).length := by simp
        _ ≤ _ := drawLines_pages_mono logo _ _ _ _
  | succ k ih =>
    intro lines y cur pages hy hlen
    cases lines with
    | nil => simp at hlen
    | cons line rest =>
      unfold drawLines
      by_cases hy0 : y < 2.5 * cm
      · rw [if_pos hy0]
        calc pages.length < (pages ++ [cur]).length := by simp
          _ ≤ _ := drawLines_pages_mono logo _ _ _ _
      · rw [if_neg hy0]
        apply ih rest (y - 14) _ pages
        · push_cast at hy ⊢
          linarith
        · simpa using Nat.lt_of_succ_lt_succ (Nat.lt_of_lt_of_le (Nat.lt_succ_self _)
            (by simpa using hlen))

theorem drawBlocks_pages_mono (logo : Bool) :
    ∀ (blocks : List PStr) (y : ℚ) (cur : Page) (pages : List Page),
      pages.length ≤ (drawBlocks logo blocks y cur pages).2.2.length := by
  intro blocks
  induction blocks with
  | nil => intro y cur pages; exact le_refl _
  | cons block rest ih =>
    intro y cur pages
    unfold drawBlocks
    dsimp only
    by_cases hb : pyStrip block = []
    · rw [if_pos hb]
      exact ih _ _ _
    · rw [if_neg hb]
      exact le_trans (drawLines_pages_mono logo _ y cur pages) (ih _ _ _)

theorem drawBlocks_break (logo : Bool) :
    ∀ (blocks : List PStr) (k : Nat) (y : ℚ) (cur : Page) (pages : List Page),
      y < 2.5 * cm + 14 * k →
      k + 1 ≤ (((blocks.map pyStrip).filter (fun b => b ≠ [])).flatMap
        (fun b => wrap_text b 95)).length →
      pages.length < (drawBlocks logo blocks y cur pages).2.2.length := by
  intro blocks
  induction blocks with
  | nil => intro k y cur pages _ hlen; simp at hlen
  | cons block rest ih =>
    intro k y cur pages hy hlen
    unfold drawBlocks
    dsimp only
    by_cases hb : pyStrip block = []
    · rw [if_pos hb]
      apply ih k (y - 10) cur pages (by linarith)
      simpa [hb] using hlen
    · rw [if_neg hb]
      by_cases hbreak : pages.length
          < (drawLines logo (wrap_text (pyStrip block) 95) y cur pages).2.2.length
      · exact lt_of_lt_of_le hbreak (drawBlocks_pages_mono logo rest _ _ _)
      · have heq : (drawLines logo (wrap_text (pyStrip block) 95) y cur pages).2.2.length
            = pages.length :=
          le_antisymm (not_lt.mp hbreak) (drawLines_pages_mono logo _ y cur pages)
        have hyL := drawLines_no_break logo (wrap_text (pyStrip block) 95) y cur pages heq
        by_cases hLk : k + 1 ≤ (wrap_text (pyStrip block) 95).length
        · exact absurd (drawLines_break logo k (wrap_text (pyStrip block) 95) y cur pages
            hy hLk) hbreak
        · have hLk' : (wrap_text (pyStrip block) 95).length ≤ k := by omega
          have hgoal := ih (k - (wrap_text (pyStrip block) 95).length)
            (drawLines logo (wrap_text (pyStrip block) 95) y cur pages).1
            (drawLines logo (wrap_text (pyStrip block) 95) y cur pages).2.1
            (drawLines logo (wrap_text (pyStrip block) 95) y cur pages).2.2
            (by
              rw [hyL, Nat.cast_sub hLk']
              linarith)
            (by
              have hlen' : k + 1 ≤ (wrap_text (pyStrip block) 95).length
                  + (((rest.map pyStrip).filter (fun b => b ≠ [])).flatMap
                    (fun b => wrap_text b 95)).length := by
                simpa [hb] using hlen
              omega)
          rw [heq] at hgoal
          exact hgoal

theorem renderSlide_pages_eq (logo : Bool) (total i : Nat) (s : JsonObj) :
    (renderSlide logo total i s).length
      = (drawBlocks logo (pySplitSep '\n' (pdf_content s)) (A4height - 6.0 * cm)
          (slideHeaderOps logo i total (pdf_slide_type s) (pdf_title s)) []).2.2.length + 1 := by
  unfold renderSlide
  simp

theorem stripped_blocks_words (blocks : List PStr) :
    ((blocks.map pyStrip).filter (fun b => b ≠ [])).flatMap pySplitWs
      = blocks.flatMap pySplitWs := by
  induction blocks with
  | nil => rfl
  | cons b rest ih =>
    have ih' : (List.filter (fun x => !decide (x = [])) (List.map pyStrip rest)).flatMap pySplitWs
        = rest.flatMap pySplitWs := by simpa using ih
    by_cases hb : pyStrip b = []
    · have hsb : pySplitWs b = [] := by rw [← pySplitWs_pyStrip, hb]; rfl
      simp [hb, hsb, ih']
    · simp only [List.map_cons, List.filter_cons, ne_eq]
      rw [if_pos (by simp [hb])]
      simp [pySplitWs_pyStrip, ih']

/-- C7: for every slide, (i) the content lines drawn across the physical
pages produced for that slide are exactly the word-wrapped lines of its
non-empty (stripped) source lines, in order — pagination loses and
duplicates nothing; (ii) consequently the words of the drawn lines are
exactly the words of the slide's source lines in order (wrapping collapses
only whitespace); and (iii) a slide needing more vertical space than one
page holds (44 or more wrapped lines always overflows the
`A4height - 6cm … 2.5cm` body region at 14 points per line) produces at
least two physical pages rather than clipping. -/
theorem C7_pagination_no_loss_no_clip (logo : Bool) (total i : Nat) (s : JsonObj) :
    (((renderSlide logo total i s).flatten).filterMap contentLineOf
      = (((pySplitSep '\n' (pdf_content s)).map pyStrip).filter (fun b => b ≠ [])).flatMap
          (fun b => wrap_text b 95)) ∧
    ((((renderSlide logo total i s).flatten).filterMap contentLineOf).flatMap pySplitWs
      = (pySplitSep '\n' (pdf_content s)).flatMap pySplitWs) ∧
    (44 ≤ ((((pySplitSep '\n' (pdf_content s)).map pyStrip).filter (fun b => b ≠ [])).flatMap
        (fun b => wrap_text b 95)).length →
      2 ≤ (renderSlide logo total i s).length) := by
  refine ⟨renderSlide_content logo total i s, ?_, ?_⟩
  · rw [renderSlide_content logo total i s]
    rw [List.flatMap_assoc]
    simp only [wrap_text_words]
    exact stripped_blocks_words _
  · intro h
    rw [renderSlide_pages_eq]
    have hbreak := drawBlocks_break logo (pySplitSep '\n' (pdf_content s)) 43
      (A4height - 6.0 * cm)
      (slideHeaderOps logo i total (pdf_slide_type s) (pdf_title s)) []
      (by norm_num [A4height, cm])
      (by simpa using h)
    simp only [List.length_nil] at hbreak
    omega

/-- C7 witness: a slide whose content is 44 one-character lines wraps to
44 lines and therefore spans at least two physical pages. -/
theorem C7_witness_overflowing_slide :
    (44 ≤ ((((pySplitSep '\n' (pdf_content tallSlide)).map pyStrip).filter
        (fun b => b ≠ [])).flatMap (fun b => wrap_text b 95)).length) ∧
    2 ≤ (renderSlide true 1 1 tallSlide).length :=
  ⟨by decide, (C7_pagination_no_loss_no_clip true 1 1 tallSlide).2.2 (by decide)⟩
